import Mathlib

/-!
# DTOForm: the checklist form controller

A shallow embedding of `src/DTOForm.jsx`: the React state of the component, its
handlers (`handleAreaChange`, `handleSubareaChange`, `handleAnswer`,
`handleSubmit`) and the parts of the rendered form that decide which handler
calls are possible (the subarea options, the checklist buttons, the disabled
submit button).

Conventions of the embedding.

* JS strings are `String`; every operation on them goes through `.data`, so it
  evaluates structurally.
* A JS object is the list of its own properties in creation order.  The keys
  of `answers` are the strings of non-negative integer `Number`s and are kept
  as the integers themselves (`Nat`); the payload objects have string keys.
* A `Number` that is a non-negative integer is kept as that integer; an
  arithmetic result is rounded to the nearest double by `toNumber`.
* The module `perguntasDTO`, the properties every plain object inherits from
  `Object.prototype`, the host `Date` constructor and the Supabase client are
  not part of `DTOForm.jsx`; they are the fields of `Env`.
* `handleSubmit` is an `async` function with one `await`.  It is split at the
  `await` into `handleSubmitBegin` and `handleSubmitResume`; `handleSubmit` is
  the run in which nothing else happens while the insert is pending.
-/

namespace DTOForm

/-! ## JavaScript values -/

/-- Property write `o[k] = v` on an object given as its own-property list: an
existing property keeps its position and takes the new value, a new property is
appended. -/
def setProp {κ : Type} [DecidableEq κ] : List (κ × String) → κ → String → List (κ × String)
  | [], k, v => [(k, v)]
  | (k', v') :: rest, k, v =>
    if k' = k then (k', v) :: rest else (k', v') :: setProp rest k v

/-- Object with string keys that are not array indices: enumerated in creation
order. -/
abbrev JSObj := List (String × String)

/-- Object spread `{...base, ...src}` continued onto `base`: every property of
`src` is written onto the object under construction, in enumeration order. -/
def spreadInto (base src : JSObj) : JSObj :=
  src.foldl (fun acc kv => setProp acc kv.1 kv.2) base

/-- The `answers` state object, as its own properties in creation order.  A key
is the non-negative integer `Number` passed to `handleAnswer` as
`questionIndex` (in the rendered checklist, the `index` of
`Array.prototype.map`); the values are the answer labels. -/
abbrev Answers := List (Nat × String)

/-- The key is an array index: an integer from 0 to `2^32 - 2`. -/
def isArrayIndex (k : Nat) : Bool := decide (k < 4294967295)

/-- Own properties in the order every enumeration (`Object.keys`,
`Object.entries`, spread) visits them: the array-index keys in ascending
numeric order, then the other keys in creation order. -/
def ownEntries (a : Answers) : Answers :=
  (a.filter (fun e => isArrayIndex e.1)).insertionSort (fun x y => x.1 ≤ y.1)
    ++ a.filter (fun e => !isArrayIndex e.1)

/-- Shift `e` at which `n / 2^e` fits in 53 bits, searched upwards from `e`. -/
def findShift : Nat → Nat → Nat → Nat
  | 0, e, _ => e
  | fuel + 1, e, n => if n / 2 ^ e < 9007199254740992 then e else findShift fuel (e + 1) n

/-- The `Number` nearest to the non-negative integer `n`: `n` itself up to
`2^53`, and above it the nearest multiple of the spacing of the doubles around
`n`, a tie going to the even significand. -/
def toNumber (n : Nat) : Nat :=
  if n ≤ 9007199254740992 then n
  else
    let e := findShift 1024 1 n
    let q := n / 2 ^ e
    let r := n % 2 ^ e
    let half := 2 ^ (e - 1)
    let q' := if half < r ∨ (r = half ∧ q % 2 = 1) then q + 1 else q
    q' * 2 ^ e

/-- Digits without their trailing zeros. -/
def stripTrailingZeros (cs : List Char) : List Char :=
  (cs.reverse.dropWhile (fun c => c == '0')).reverse

/-- The `k`-digit significands of the `L`-digit integer `n` whose `Number`
value is `n`, the nearest to `n` first. -/
def significands (n L k : Nat) : List Nat :=
  let p := 10 ^ (L - k)
  let lo := n / p
  let hi := lo + 1
  let dlo := n - lo * p
  let dhi := hi * p - n
  let ordered :=
    if dlo < dhi then [lo, hi]
    else if dhi < dlo then [hi, lo]
    else if lo % 2 = 0 then [lo, hi] else [hi, lo]
  ordered.filter (fun s => decide (toNumber (s * p) = n))

/-- The integer written by the shortest significand of `n`, tried at `k`,
`k + 1`, .. digits. -/
def shortestSignificand (n L : Nat) : Nat → Nat → Nat
  | 0, _ => n
  | fuel + 1, k =>
    match significands n L k with
    | s :: _ => s * 10 ^ (L - k)
    | [] => shortestSignificand n L fuel (k + 1)

/-- Exponent form of `Number::toString` for an integer `Number` of 22 digits or
more: the shortest significand that reads back as `n`, a point after its first
digit, and the decimal exponent. -/
def exponentForm (n : Nat) : String :=
  let L := (Nat.toDigits 10 n).length
  let v := shortestSignificand n L 17 1
  let ds := stripTrailingZeros (Nat.toDigits 10 v)
  let ex := (Nat.toDigits 10 v).length - 1
  match ds with
  | [] => "0"
  | [d] => String.mk (d :: 'e' :: '+' :: Nat.toDigits 10 ex)
  | d :: rest => String.mk (d :: '.' :: rest ++ 'e' :: '+' :: Nat.toDigits 10 ex)

/-- Result of `Number::toString` on a non-negative integer `Number` (property
key conversion and template interpolation): decimal digits below `10^21`,
exponent form from there on. -/
def numberToString (n : Nat) : String :=
  if n < 1000000000000000000000 then Nat.repr n else exponentForm n

/-- Result of `Object.keys(answers)`: the keys as strings. -/
def objectKeys (a : Answers) : List String :=
  (ownEntries a).map (fun e => numberToString e.1)

/-- Result of `Object.entries(answers)`: `[key, value]` pairs, keys as strings. -/
def objectEntries (a : Answers) : List (String × String) :=
  (ownEntries a).map (fun e => (numberToString e.1, e.2))

/-- Value of a decimal digit character. -/
def digitValue (c : Char) : Nat := c.toNat - 48

/-- Value of a string of decimal digits, most significant first. -/
def digitsValue (cs : List Char) : Nat :=
  cs.foldl (fun acc c => 10 * acc + digitValue c) 0

/-- Function `parseInt` on the strings `handleSubmit` passes to it: the `Number`
of the leading run of decimal digits, `none` (NaN) when there is none.  White
space, sign and radix prefix are not modelled; keys coming from
`Object.entries` have none. -/
def parseInt (s : String) : Option Nat :=
  match s.data.takeWhile Char.isDigit with
  | [] => none
  | c :: cs => some (toNumber (digitsValue (c :: cs)))

/-- The sum `parseInt(key) + 1`, a `Number`; NaN plus one is NaN. -/
def plusOne : Option Nat → Option Nat
  | some n => some (toNumber (n + 1))
  | none => none

/-- Interpolation of `parseInt(key) + 1` into a template literal; NaN prints
as `NaN`. -/
def interpolate : Option Nat → String
  | some n => numberToString n
  | none => "NaN"

/-- Result of `s.replace(/\D/g, '')`: every character outside `0`..`9` removed. -/
def stripNonDigits (s : String) : String := ⟨s.data.filter Char.isDigit⟩

/-- Result of `s.slice(a, b)` for `0 ≤ a ≤ b`. -/
def jsSlice (s : String) (a b : Nat) : String := ⟨(s.data.take b).drop a⟩

/-! ## Collaborators outside `DTOForm.jsx` -/

/-- An array of question texts; the length of an array is at most `2^32 - 1`. -/
abbrev QuestionArray := { qs : List String // qs.length < 4294967296 }

/-- The own properties of `perguntasDTO`: area name, then subarea name, then the
array of question texts. -/
abbrev QuestionBank := List (String × List (String × QuestionArray))

/-- What the `catch` branch reads from the caught value: `message` and `code`,
each possibly absent. -/
structure ErrLike where
  message : Option String
  code : Option String
deriving DecidableEq, Repr

/-- A value `v` that plain objects inherit from `Object.prototype`, as far as
`handleSubmit` reads it. -/
structure Inherited where
  /-- The value of `v.length || 0`. -/
  length : Nat
  /-- The value of `v[name]?.length || 0`, or the error the read throws. -/
  member : String → Except ErrLike Nat

/-- Equality of the results of a property read is decidable. -/
instance : DecidableEq (Except ErrLike Nat)
  | .ok x, .ok y => decidable_of_iff (x = y) ⟨fun h => by rw [h], fun h => by injection h⟩
  | .error x, .error y => decidable_of_iff (x = y) ⟨fun h => by rw [h], fun h => by injection h⟩
  | .ok _, .error _ => isFalse (fun h => by cases h)
  | .error _, .ok _ => isFalse (fun h => by cases h)

/-- The value of `new Error(msg)`. -/
def newError (msg : String) : ErrLike := { message := some msg, code := none }

/-- Everything `handleSubmit` reaches outside the component. -/
structure Env where
  /-- The own properties of the imported question bank. -/
  perguntasDTO : QuestionBank
  /-- The property a plain object inherits from `Object.prototype` under a
  name; `none` when it inherits nothing there. -/
  inherited : String → Option Inherited
  /-- The host test `isNaN(new Date(s).getTime())`. -/
  dateIsNaN : String → Bool
  /-- The `error` member of the awaited `supabase.from(table).insert(rows)`;
  `none` is a null error. -/
  insert : String → List JSObj → Option ErrLike

/-! ## Component state -/

/-- The `formData` state object. -/
structure FormData where
  data : String
  colaborador : String
  supervisor : String
  funcao : String
deriving DecidableEq, Repr

/-- The seven `useState` cells of the component. -/
structure State where
  selectedArea : String
  selectedSubarea : String
  answers : Answers
  formData : FormData
  showSuccess : Bool
  error : Option String
  isSubmitting : Bool
deriving DecidableEq, Repr

/-- Initial values of the `useState` calls. -/
def initialState : State :=
  { selectedArea := ""
    selectedSubarea := ""
    answers := []
    formData := { data := "", colaborador := "", supervisor := "", funcao := "" }
    showSuccess := false
    error := none
    isSubmitting := false }

/-- Callbacks handed to `setTimeout`. -/
inductive TimerCallback where
  /-- The arrow `() => setShowSuccess(false)`. -/
  | hideSuccess
  /-- The arrow that scrolls the date input into view. -/
  | scrollDateIntoView
deriving DecidableEq, Repr

/-- Calls that leave the component. -/
inductive Effect where
  /-- The call `e.preventDefault()`. -/
  | preventDefault
  /-- The call `supabase.from(table).insert(rows)`. -/
  | insert (table : String) (rows : List JSObj)
  /-- The call `setTimeout(cb, ms)`. -/
  | setTimeout (cb : TimerCallback) (ms : Nat)
  /-- The call `window.scrollTo` with `top` and smooth behaviour. -/
  | scrollTo (top : Nat)
deriving DecidableEq, Repr

/-- State change made when a scheduled callback fires. -/
def runTimer (cb : TimerCallback) (s : State) : State :=
  match cb with
  | .hideSuccess => { s with showSuccess := false }
  | .scrollDateIntoView => s

/-! ## Selection and answer handlers -/

/-- Handler `handleAreaChange` with `e.target.value = v`. -/
def handleAreaChange (s : State) (v : String) : State :=
  { s with selectedArea := v, selectedSubarea := "", answers := [] }

/-- Handler `handleSubareaChange` with `e.target.value = v`. -/
def handleSubareaChange (s : State) (v : String) : State :=
  { s with selectedSubarea := v, answers := [] }

/-- Handler `handleAnswer`: the functional update
`prev => ({ ...prev, [questionIndex]: answer })`. -/
def handleAnswer (s : State) (questionIndex : Nat) (answer : String) : State :=
  { s with answers := setProp (ownEntries s.answers) questionIndex answer }

/-- The clicks `handleAnswer(k, v)` for the pairs of `clicks`, in list order. -/
def recordAnswers (s : State) (clicks : List (Nat × String)) : State :=
  clicks.foldl (fun st e => handleAnswer st e.1 e.2) s

/-! ## Submit workflow -/

/-- Length of the question list of an area and a subarea of the bank; 0 when
the bank has no such area or the area no such subarea. -/
def questionCount (bank : QuestionBank) (area subarea : String) : Nat :=
  match (bank.lookup area).bind (fun subs => subs.lookup subarea) with
  | some qs => qs.val.length
  | none => 0

/-- The expression `perguntasDTO[selectedArea]?.[selectedSubarea]?.length || 0`.
Each read takes the own property when there is one and the property inherited
from `Object.prototype` otherwise; a read that finds neither gives
`undefined`. -/
def totalQuestions (env : Env) (area subarea : String) : Except ErrLike Nat :=
  match env.perguntasDTO.lookup area with
  | some subs =>
    match subs.lookup subarea with
    | some qs => .ok (if qs.val.length = 0 then 0 else qs.val.length)
    | none =>
      match env.inherited subarea with
      | some v => .ok v.length
      | none => .ok 0
  | none =>
    match env.inherited area with
    | some v => v.member subarea
    | none => .ok 0

/-- Message thrown by the completeness check. -/
def msgIncomplete : String := "Por favor, responda todas as perguntas antes de enviar."

/-- Message thrown when the stripped date has not 8 digits. -/
def msgDateLength : String := "Data inválida. Preencha completamente DD/MM/AAAA"

/-- Message thrown when the host reports the date as NaN. -/
def msgDateInvalid : String := "Data inválida."

/-- Initial value of `errorMessage` in the `catch` branch. -/
def msgFallback : String := "Erro no envio: "

/-- Message for the store's code `22008`. -/
def msgDateStore : String := "Formato de data inválido no banco de dados."

/-- Message for the store's code `42501`. -/
def msgPermission : String := "Permissão negada. Verifique as políticas do Supabase."

/-- The message computed by the `catch` branch: three assignments in source
order, the later ones overriding the earlier. -/
def errorMessage (err : ErrLike) : String :=
  let m0 := msgFallback
  let m1 := match err.message with
    | some m => if m = "" then m0 else m
    | none => m0
  let m2 := if err.code = some "22008" then msgDateStore else m1
  if err.code = some "42501" then msgPermission else m2

/-- The `catch` branch followed by `finally`, on the state `s`. -/
def catchFinally (s : State) (err : ErrLike) : State × List Effect :=
  ({ s with error := some (errorMessage err), isSubmitting := false }, [Effect.scrollTo 0])

/-- The template literal built from the three slices of the stripped date. -/
def dataISO (rawDate : String) : String :=
  jsSlice rawDate 4 8 ++ "-" ++ jsSlice rawDate 2 4 ++ "-" ++ jsSlice rawDate 0 2

/-- The object `respostasMapeadas` after the `forEach` over
`Object.entries(answers)`. -/
def respostasMapeadas (a : Answers) : JSObj :=
  (objectEntries a).foldl
    (fun acc kv =>
      let numeroPergunta := plusOne (parseInt kv.1)
      setProp acc ("pergunta_" ++ interpolate numeroPergunta) kv.2)
    []

/-- The object literal `payload`. -/
def payload (s : State) (iso : String) : JSObj :=
  spreadInto
    [("data", iso), ("supervisor", s.formData.supervisor),
     ("colaborador", s.formData.colaborador), ("funcao", s.formData.funcao),
     ("area", s.selectedArea), ("subarea", s.selectedSubarea)]
    (respostasMapeadas s.answers)

/-- Where the synchronous part of `handleSubmit` stops. -/
inductive SubmitPhase where
  /-- Something threw before the `await`: `catch` and `finally` have run. -/
  | settled (s : State) (effects : List Effect)
  /-- Suspended at the `await` on the insert of `row`. -/
  | awaiting (s : State) (row : JSObj) (effects : List Effect)
deriving DecidableEq, Repr

/-- Function `handleSubmit` up to its `await`. -/
def handleSubmitBegin (env : Env) (s : State) : SubmitPhase :=
  let s1 := { s with error := none, isSubmitting := true }
  match totalQuestions env s.selectedArea s.selectedSubarea with
  | .error err =>
    let r := catchFinally s1 err
    .settled r.1 (Effect.preventDefault :: r.2)
  | .ok total =>
    if (objectKeys s.answers).length ≠ total then
      let r := catchFinally s1 (newError msgIncomplete)
      .settled r.1 (Effect.preventDefault :: r.2)
    else
      let rawDate := stripNonDigits s.formData.data
      if rawDate.length ≠ 8 then
        let r := catchFinally s1 (newError msgDateLength)
        .settled r.1 (Effect.preventDefault :: r.2)
      else
        let iso := dataISO rawDate
        if env.dateIsNaN iso then
          let r := catchFinally s1 (newError msgDateInvalid)
          .settled r.1 (Effect.preventDefault :: r.2)
        else
          let row := payload s iso
          .awaiting s1 row [Effect.preventDefault, Effect.insert "dto_registros" [row]]

/-- Function `handleSubmit` from the `await` on, with the `error` member of the
insert result, on the state `s` current at that time. -/
def handleSubmitResume (s : State) (supabaseError : Option ErrLike) : State × List Effect :=
  match supabaseError with
  | some err => catchFinally s err
  | none =>
    ({ s with
        formData := { data := "", colaborador := "", supervisor := "", funcao := "" }
        selectedArea := ""
        selectedSubarea := ""
        answers := []
        showSuccess := true
        isSubmitting := false },
     [Effect.setTimeout .hideSuccess 5000, Effect.scrollTo 0])

/-- One whole run of `handleSubmit`: final state and the calls made, in order. -/
def handleSubmit (env : Env) (s : State) : State × List Effect :=
  match handleSubmitBegin env s with
  | .settled s' effects => (s', effects)
  | .awaiting s' row effects =>
    let r := handleSubmitResume s' (env.insert "dto_registros" [row])
    (r.1, effects ++ r.2)

/-! ## The rendered form -/

/-- The `disabled` attribute of the submit button. -/
def submitDisabled (s : State) : Bool := s.isSubmitting

/-- A submit attempt through the rendered form: a disabled submit button
delivers no `submit` event, so `handleSubmit` does not run. -/
def submitAttempt (env : Env) (s : State) : State × List Effect :=
  if submitDisabled s then (s, []) else handleSubmit env s

/-- Values of the `option` elements rendered under the subarea select, besides
the empty one: `selectedArea && Object.keys(perguntasDTO[selectedArea])`.  For
an area outside the bank the render throws; no option is listed then. -/
def subareaOptions (bank : QuestionBank) (s : State) : List String :=
  if s.selectedArea = "" then []
  else match bank.lookup s.selectedArea with
    | some subs => subs.map Prod.fst
    | none => []

/-- The questions the checklist renders, one pair of buttons each:
`selectedSubarea && perguntasDTO[selectedArea][selectedSubarea]`.  For a
selection outside the bank the render throws; no question is listed then. -/
def renderedQuestions (bank : QuestionBank) (s : State) : List String :=
  if s.selectedSubarea = "" then []
  else match (bank.lookup s.selectedArea).bind (fun subs => subs.lookup s.selectedSubarea) with
    | some qs => qs.val
    | none => []

/-- States the form reaches from mount through the selection and answer
handlers, each invoked as the rendered controls allow. -/
inductive Reachable (bank : QuestionBank) : State → Prop where
  | init : Reachable bank initialState
  | area (s : State) (v : String) : Reachable bank s → Reachable bank (handleAreaChange s v)
  | subarea (s : State) (v : String) : Reachable bank s →
      (v = "" ∨ v ∈ subareaOptions bank s) → Reachable bank (handleSubareaChange s v)
  | answer (s : State) (i : Nat) (label : String) : Reachable bank s →
      i < (renderedQuestions bank s).length → (label = "OK" ∨ label = "NOK") →
      Reachable bank (handleAnswer s i label)

/-! ## Calendar dates and host date parsers -/

/-- Gregorian leap-year rule. -/
def isLeapYear (y : Nat) : Bool :=
  (y % 4 == 0 && y % 100 != 0) || y % 400 == 0

/-- Number of days of month `m` (1..12) in year `y`; 0 for any other `m`. -/
def daysInMonth (y m : Nat) : Nat :=
  if m = 2 then (if isLeapYear y then 29 else 28)
  else if m = 4 ∨ m = 6 ∨ m = 9 ∨ m = 11 then 30
  else if 1 ≤ m ∧ m ≤ 12 then 31
  else 0

/-- The calendar date year `y`, month `m`, day `d` exists. -/
def calendarDateExists (y m d : Nat) : Bool :=
  decide (1 ≤ m ∧ m ≤ 12 ∧ 1 ≤ d ∧ d ≤ daysInMonth y m)

/-- Year, month and day of a string of the date-only form `YYYY-MM-DD`; `none`
for any other string. -/
def isoFields (iso : String) : Option (Nat × Nat × Nat) :=
  match iso.data with
  | [y1, y2, y3, y4, '-', m1, m2, '-', d1, d2] =>
    if [y1, y2, y3, y4, m1, m2, d1, d2].all Char.isDigit then
      some (digitsValue [y1, y2, y3, y4], digitsValue [m1, m2], digitsValue [d1, d2])
    else none
  | _ => none

/-- The string is of the form `YYYY-MM-DD` and names an existing calendar
date. -/
def isoDateExists (iso : String) : Bool :=
  match isoFields iso with
  | some (y, m, d) => calendarDateExists y m d
  | none => false

/-- A host whose date parser accepts a date-only string exactly when it names an
existing calendar date: the day is checked against the length of the month. -/
def strictDateIsNaN (iso : String) : Bool := !isoDateExists iso

/-- The date parser of V8, the engine of Chrome, Edge and Node, on the strings
of the form `YYYY-MM-DD` (the only ones `handleSubmit` builds).  On the
date-only path (`ParseES5DateTime`) month 01..12 and day 01..31 are accepted;
the day is not compared with the length of the month, and `MakeDay` carries
the excess into the following month (`2024-04-31` is 1 May 2024).  A string
that leaves this path goes to the legacy parser, which reads the three numbers
as month, day and two-digit year when the first is a day number (1..31), and
accepts them when the month is 1..12 and the day 1..31 (`0001-13-01` is 13
January 2001).  Any other string is reported as NaN. -/
def v8DateIsNaN (iso : String) : Bool :=
  match isoFields iso with
  | some (y, m, d) =>
    if 1 ≤ m ∧ m ≤ 12 ∧ 1 ≤ d ∧ d ≤ 31 then false
    else if 1 ≤ y ∧ y ≤ 31 then !(decide (1 ≤ y ∧ y ≤ 12 ∧ 1 ≤ m ∧ m ≤ 31))
    else true
  | none => true

/-- The field name starts with `pergunta_`. -/
def isPerguntaField (kv : String × String) : Bool :=
  decide (kv.1.data.take 9 = "pergunta_".data)

/-- The effect is an insert call. -/
def isInsert : Effect → Bool
  | .insert _ _ => true
  | _ => false

/-- The effect is a `setTimeout` call. -/
def isTimer : Effect → Bool
  | .setTimeout _ _ => true
  | _ => false

/-! ## Concrete inputs -/

/-- A question bank with two areas and three subareas. -/
def exampleBank : QuestionBank :=
  [("seguranca",
      [("epi", ⟨["Capacete em uso?", "Luvas em uso?", "Calçado fechado?"], by decide⟩),
       ("altura", ⟨["Cinto ancorado?"], by decide⟩)]),
   ("qualidade", [("inspecao", ⟨["Lote conferido?", "Etiqueta legível?"], by decide⟩)])]

/-- The methods of `Object.prototype` with their `length`; the function under
`constructor` is `Object`. -/
def objectPrototypeMethods : List (String × Nat) :=
  [("constructor", 1), ("hasOwnProperty", 1), ("isPrototypeOf", 1),
   ("propertyIsEnumerable", 1), ("toLocaleString", 0), ("toString", 0), ("valueOf", 0),
   ("__defineGetter__", 2), ("__defineSetter__", 2), ("__lookupGetter__", 1),
   ("__lookupSetter__", 1)]

/-- The methods of `Function.prototype` with their `length`; the function under
`constructor` is `Function`. -/
def functionPrototypeMethods : List (String × Nat) :=
  [("apply", 2), ("bind", 1), ("call", 1), ("toString", 0), ("constructor", 1)]

/-- The value of `f[name]?.length || 0` for a built-in function `f` named
`fname`: its own `name` is a string and its own `length` a number; then come
the methods of `Function.prototype` and of `Object.prototype`.  Not listed, and
read as `undefined` here: the static methods of `Object`, and the accessors
`caller` and `arguments`. -/
def functionMember (fname name : String) : Nat :=
  if name = "name" then fname.length
  else if name = "length" then 0
  else match functionPrototypeMethods.lookup name with
    | some n => n
    | none => (objectPrototypeMethods.lookup name).getD 0

/-- What a plain object inherits from `Object.prototype` in a standard
environment: the eleven methods, and under `__proto__` the prototype object
itself. -/
def standardInherited (name : String) : Option Inherited :=
  if name = "__proto__" then
    some { length := 0, member := fun sub => .ok ((objectPrototypeMethods.lookup sub).getD 0) }
  else match objectPrototypeMethods.lookup name with
    | some n =>
      some { length := n
             member := fun sub =>
               .ok (functionMember (if name = "constructor" then "Object" else name) sub) }
    | none => none

/-- Month-length-checking host; every insert succeeds. -/
def exampleEnv : Env :=
  { perguntasDTO := exampleBank
    inherited := standardInherited
    dateIsNaN := strictDateIsNaN
    insert := fun _ _ => none }

/-- V8 host; every insert succeeds. -/
def v8Env : Env :=
  { perguntasDTO := exampleBank
    inherited := standardInherited
    dateIsNaN := v8DateIsNaN
    insert := fun _ _ => none }

/-- Month-length-checking host; every insert is refused by a row-level policy. -/
def deniedEnv : Env :=
  { perguntasDTO := exampleBank
    inherited := standardInherited
    dateIsNaN := strictDateIsNaN
    insert := fun _ _ =>
      some { message := some "new row violates row-level security policy", code := some "42501" } }

/-- A filled form: three questions, answers recorded in the order 2, 0, 1. -/
def exampleState : State :=
  { selectedArea := "seguranca"
    selectedSubarea := "epi"
    answers := [(2, "OK"), (0, "OK"), (1, "NOK")]
    formData := { data := "25122024", colaborador := "Ana", supervisor := "Rui", funcao := "Soldador" }
    showSuccess := false
    error := some "Data inválida."
    isSubmitting := false }

/-- The filled form with another text in the date field. -/
def withDate (s : State) (d : String) : State :=
  { s with formData := { s.formData with data := d } }

/-! ## Numbers and strings -/

theorem digitChar_spec : ∀ d, d < 10 →
    (Nat.digitChar d).isDigit = true ∧ digitValue (Nat.digitChar d) = d := by
  decide

theorem toDigitsCore_all_digits (f : Nat) : ∀ (n : Nat) (ds : List Char),
    (∀ c ∈ ds, c.isDigit = true) → ∀ c ∈ Nat.toDigitsCore 10 f n ds, c.isDigit = true := by
  induction f with
  | zero => intro n ds h; simpa [Nat.toDigitsCore] using h
  | succ f ih =>
    intro n ds h
    have hd := (digitChar_spec (n % 10) (Nat.mod_lt _ (by decide))).1
    simp only [Nat.toDigitsCore]
    split
    · intro c hc
      rcases List.mem_cons.1 hc with rfl | hc
      · exact hd
      · exact h c hc
    · apply ih
      intro c hc
      rcases List.mem_cons.1 hc with rfl | hc
      · exact hd
      · exact h c hc

theorem toDigitsCore_value (f : Nat) : ∀ (n : Nat) (ds : List Char), n < f →
    (Nat.toDigitsCore 10 f n ds).foldl (fun acc c => 10 * acc + digitValue c) 0
      = ds.foldl (fun acc c => 10 * acc + digitValue c) n := by
  induction f with
  | zero => intro n ds h; omega
  | succ f ih =>
    intro n ds h
    have hd := (digitChar_spec (n % 10) (Nat.mod_lt _ (by decide))).2
    simp only [Nat.toDigitsCore]
    split
    · rename_i h0
      have : n % 10 = n := by omega
      simp only [List.foldl_cons, hd]
      congr 1
      omega
    · rename_i h0
      rw [ih (n / 10) _ (by omega)]
      simp only [List.foldl_cons, hd]
      congr 1
      omega

theorem toNumber_of_le (n : Nat) (h : n ≤ 9007199254740992) : toNumber n = n := by
  simp [toNumber, h]

theorem numberToString_data (n : Nat) (h : n < 1000000000000000000000) :
    (numberToString n).data = Nat.toDigitsCore 10 (n + 1) n [] := by
  simp only [numberToString, h, if_true]
  rfl

theorem numberToString_ne_nil (n : Nat) (h : n < 1000000000000000000000) :
    (numberToString n).data ≠ [] := by
  rw [numberToString_data n h]
  simp only [Nat.toDigitsCore]
  split
  · simp
  · intro h
    have := congrArg List.length h
    rw [Nat.toDigitsCore_lens_eq] at this
    simp at this

theorem parseInt_numberToString (n : Nat) (h : n ≤ 9007199254740992) :
    parseInt (numberToString n) = some n := by
  have h21 : n < 1000000000000000000000 := by omega
  have hall : ∀ c ∈ (numberToString n).data, c.isDigit = true := by
    rw [numberToString_data n h21]
    exact toDigitsCore_all_digits _ _ _ (by simp)
  have htw : (numberToString n).data.takeWhile Char.isDigit = (numberToString n).data :=
    List.takeWhile_eq_self_iff.2 hall
  have hval : digitsValue (numberToString n).data = n := by
    rw [numberToString_data n h21]
    exact toDigitsCore_value _ _ _ (Nat.lt_succ_self n)
  unfold parseInt
  rw [htw]
  cases hds : (numberToString n).data with
  | nil => exact absurd hds (numberToString_ne_nil n h21)
  | cons c cs => simp only []; rw [← hds, hval, toNumber_of_le n h]

theorem numberToString_inj (a b : Nat) (ha : a ≤ 9007199254740992)
    (hb : b ≤ 9007199254740992) (h : numberToString a = numberToString b) : a = b := by
  have := congrArg parseInt h
  simpa [parseInt_numberToString a ha, parseInt_numberToString b hb] using this

/-! ## Property lists -/

theorem setProp_append_of_not_mem {κ : Type} [DecidableEq κ] (o : List (κ × String)) (k : κ)
    (v : String) (h : k ∉ o.map Prod.fst) : setProp o k v = o ++ [(k, v)] := by
  induction o with
  | nil => rfl
  | cons e o ih =>
    obtain ⟨k', v'⟩ := e
    simp only [List.map_cons, List.mem_cons, not_or] at h
    have hne : ¬ k' = k := fun hk => h.1 hk.symm
    simp only [setProp, hne, if_false, List.cons_append, ih h.2]

theorem setProp_keys_of_mem {κ : Type} [DecidableEq κ] (o : List (κ × String)) (k : κ)
    (v : String) (h : k ∈ o.map Prod.fst) : (setProp o k v).map Prod.fst = o.map Prod.fst := by
  induction o with
  | nil => simp at h
  | cons e o ih =>
    obtain ⟨k', v'⟩ := e
    by_cases hk : k' = k
    · simp [setProp, hk]
    · have hmem : k ∈ o.map Prod.fst := by
        simp only [List.map_cons, List.mem_cons] at h
        rcases h with h | h
        · exact absurd h.symm hk
        · exact h
      simp [setProp, hk, ih hmem]

theorem foldl_setProp_eq_append {α κ : Type} [DecidableEq κ] (key : α → κ) (val : α → String) :
    ∀ (l : List α) (acc : List (κ × String)),
      (l.map key).Nodup → (∀ x ∈ l, key x ∉ acc.map Prod.fst) →
      l.foldl (fun o x => setProp o (key x) (val x)) acc
        = acc ++ l.map (fun x => (key x, val x)) := by
  intro l
  induction l with
  | nil => intro acc _ _; simp
  | cons x l ih =>
    intro acc hnd hdisj
    simp only [List.map_cons, List.nodup_cons] at hnd
    have hx : key x ∉ acc.map Prod.fst := hdisj x (List.mem_cons_self _ _)
    simp only [List.foldl_cons, setProp_append_of_not_mem acc (key x) (val x) hx]
    rw [ih _ hnd.2]
    · simp
    · intro y hy
      simp only [List.map_append, List.map_cons, List.map_nil, List.mem_append,
        List.mem_singleton, not_or]
      refine ⟨hdisj y (List.mem_cons_of_mem _ hy), ?_⟩
      intro hxy
      exact hnd.1 (hxy ▸ List.mem_map_of_mem key hy)

/-! ## Enumeration order of `answers` -/

theorem ownEntries_perm (a : Answers) : (ownEntries a).Perm a := by
  unfold ownEntries
  exact ((List.perm_insertionSort _ _).append_right _).trans (List.filter_append_perm _ a)

theorem ownEntries_length (a : Answers) : (ownEntries a).length = a.length :=
  (ownEntries_perm a).length_eq

theorem objectKeys_length (a : Answers) : (objectKeys a).length = a.length := by
  simp [objectKeys, ownEntries_length]

theorem ownEntries_keys_nodup (a : Answers) (h : (a.map Prod.fst).Nodup) :
    ((ownEntries a).map Prod.fst).Nodup :=
  (((ownEntries_perm a).map Prod.fst).nodup_iff).2 h

theorem ownEntries_of_indices (a : Answers) (hidx : ∀ e ∈ a, e.1 < 4294967295) :
    ownEntries a = a.insertionSort (fun x y => x.1 ≤ y.1) := by
  have h1 : a.filter (fun e => isArrayIndex e.1) = a :=
    List.filter_eq_self.2 (fun e he => by simp [isArrayIndex, hidx e he])
  have h2 : a.filter (fun e => !isArrayIndex e.1) = [] :=
    List.filter_eq_nil_iff.2 (fun e he => by simp [isArrayIndex, hidx e he])
  simp [ownEntries, h1, h2]

theorem ownEntries_sorted_lt (a : Answers) (h : (a.map Prod.fst).Nodup)
    (hidx : ∀ e ∈ a, e.1 < 4294967295) :
    ((ownEntries a).map Prod.fst).Sorted (· < ·) := by
  have hle : (ownEntries a).Sorted (fun x y => x.1 ≤ y.1) := by
    haveI : IsTotal (Nat × String) (fun x y => x.1 ≤ y.1) := ⟨fun x y => Nat.le_total x.1 y.1⟩
    haveI : IsTrans (Nat × String) (fun x y => x.1 ≤ y.1) :=
      ⟨fun x y z hxy hyz => Nat.le_trans hxy hyz⟩
    rw [ownEntries_of_indices a hidx]
    exact List.sorted_insertionSort _ a
  have hle' : ((ownEntries a).map Prod.fst).Pairwise (· ≤ ·) := List.pairwise_map.2 hle
  have hne : ((ownEntries a).map Prod.fst).Pairwise (· ≠ ·) := ownEntries_keys_nodup a h
  exact (hle'.and hne).imp (fun h => Nat.lt_of_le_of_ne h.1 h.2)

theorem ownEntries_eq_of_perm (a b : Answers) (hp : a.Perm b) (h : (a.map Prod.fst).Nodup)
    (hidx : ∀ e ∈ a, e.1 < 4294967295) :
    ownEntries a = ownEntries b := by
  have hb : (b.map Prod.fst).Nodup := ((hp.map Prod.fst).nodup_iff).1 h
  have hidxb : ∀ e ∈ b, e.1 < 4294967295 := fun e he => hidx e ((hp.mem_iff).2 he)
  have hperm : (ownEntries a).Perm (ownEntries b) :=
    ((ownEntries_perm a).trans hp).trans (ownEntries_perm b).symm
  haveI : IsAntisymm (Nat × String) (fun x y => x.1 < y.1) :=
    ⟨fun x y hxy hyx => absurd hxy (Nat.lt_asymm hyx)⟩
  exact List.eq_of_perm_of_sorted hperm
    (List.pairwise_map.1 (ownEntries_sorted_lt a h hidx))
    (List.pairwise_map.1 (ownEntries_sorted_lt b hb hidxb))

/-! ## The remapped answers and the payload -/

theorem perguntaKey_inj (a b : Nat) (ha : a ≤ 9007199254740992) (hb : b ≤ 9007199254740992)
    (h : "pergunta_" ++ numberToString a = "pergunta_" ++ numberToString b) : a = b := by
  have hd := congrArg String.data h
  simp only [String.data_append] at hd
  exact numberToString_inj a b ha hb (String.ext (List.append_cancel_left hd))

theorem perguntaKeys_nodup (l : Answers) (hnd : (l.map Prod.fst).Nodup)
    (hb : ∀ e ∈ l, e.1 < 9007199254740992) :
    (l.map (fun e => "pergunta_" ++ numberToString (e.1 + 1))).Nodup := by
  have hkeys : ((l.map Prod.fst).map (fun k => "pergunta_" ++ numberToString (k + 1))).Nodup := by
    apply List.Nodup.map_on _ hnd
    intro x hx y hy hxy
    obtain ⟨ex, hex, rfl⟩ := List.mem_map.1 hx
    obtain ⟨ey, hey, rfl⟩ := List.mem_map.1 hy
    have := perguntaKey_inj (ex.1 + 1) (ey.1 + 1) (hb ex hex) (hb ey hey) hxy
    omega
  simpa [List.map_map, Function.comp] using hkeys

theorem respostasMapeadas_eq (a : Answers) (h : (a.map Prod.fst).Nodup)
    (hb : ∀ e ∈ a, e.1 < 9007199254740992) :
    respostasMapeadas a
      = (ownEntries a).map (fun e => ("pergunta_" ++ numberToString (e.1 + 1), e.2)) := by
  have hstep : ∀ (l : Answers) (acc : JSObj), (∀ e ∈ l, e.1 < 9007199254740992) →
      (l.map (fun e => (numberToString e.1, e.2))).foldl
        (fun acc kv => setProp acc ("pergunta_" ++ interpolate (plusOne (parseInt kv.1))) kv.2)
        acc
      = l.foldl (fun o e => setProp o ("pergunta_" ++ numberToString (e.1 + 1)) e.2) acc := by
    intro l
    induction l with
    | nil => intro acc _; rfl
    | cons e l ih =>
      intro acc hl
      have he : e.1 < 9007199254740992 := hl e (List.mem_cons_self _ _)
      have h1 : parseInt (numberToString e.1) = some e.1 :=
        parseInt_numberToString e.1 (Nat.le_of_lt he)
      have h2 : toNumber (e.1 + 1) = e.1 + 1 := toNumber_of_le _ he
      simp only [List.map_cons, List.foldl_cons, h1, plusOne, h2, interpolate]
      exact ih _ (fun x hx => hl x (List.mem_cons_of_mem _ hx))
  have hbo : ∀ e ∈ ownEntries a, e.1 < 9007199254740992 :=
    fun e he => hb e (((ownEntries_perm a).mem_iff).1 he)
  unfold respostasMapeadas objectEntries
  rw [hstep _ _ hbo]
  have hnd := perguntaKeys_nodup (ownEntries a) (ownEntries_keys_nodup a h) hbo
  have := foldl_setProp_eq_append (fun e : Nat × String => "pergunta_" ++ numberToString (e.1 + 1))
    (fun e => e.2) (ownEntries a) [] hnd (by simp)
  simpa using this

theorem perguntaKey_isPerguntaField (n : Nat) (v : String) :
    isPerguntaField ("pergunta_" ++ numberToString n, v) = true := by
  have h : ("pergunta_" ++ numberToString n).data.take 9 = "pergunta_".data := by
    rw [String.data_append]
    exact List.take_left' rfl
  simp [isPerguntaField, h]

theorem perguntaKey_not_fixed (n : Nat) :
    "pergunta_" ++ numberToString n ∉
      ["data", "supervisor", "colaborador", "funcao", "area", "subarea"] := by
  intro hmem
  have hhead : ∀ s : String, "pergunta_" ++ numberToString n = s → s.data.head? = some 'p' := by
    intro s hs
    rw [← hs, String.data_append]
    rfl
  simp only [List.mem_cons, List.mem_singleton, List.not_mem_nil, or_false] at hmem
  rcases hmem with h | h | h | h | h | h <;> exact absurd (hhead _ h) (by decide)

theorem payload_eq (s : State) (iso : String) (h : (s.answers.map Prod.fst).Nodup)
    (hb : ∀ e ∈ s.answers, e.1 < 9007199254740992) :
    payload s iso =
      [("data", iso), ("supervisor", s.formData.supervisor),
       ("colaborador", s.formData.colaborador), ("funcao", s.formData.funcao),
       ("area", s.selectedArea), ("subarea", s.selectedSubarea)]
      ++ (ownEntries s.answers).map (fun e => ("pergunta_" ++ numberToString (e.1 + 1), e.2)) := by
  unfold payload spreadInto
  rw [respostasMapeadas_eq _ h hb, List.foldl_map]
  have hbo : ∀ e ∈ ownEntries s.answers, e.1 < 9007199254740992 :=
    fun e he => hb e (((ownEntries_perm s.answers).mem_iff).1 he)
  have hnd := perguntaKeys_nodup (ownEntries s.answers) (ownEntries_keys_nodup s.answers h) hbo
  exact foldl_setProp_eq_append
    (fun e : Nat × String => "pergunta_" ++ numberToString (e.1 + 1)) (fun e => e.2)
    (ownEntries s.answers) _ hnd (fun e _ => perguntaKey_not_fixed (e.1 + 1))

/-! ## Runs of `handleSubmit` -/

theorem errorMessage_newError (msg : String) (h : msg ≠ "") :
    errorMessage (newError msg) = msg := by
  simp [errorMessage, newError, h]

theorem handleSubmit_of_throw (env : Env) (s : State) (err : ErrLike)
    (h : totalQuestions env s.selectedArea s.selectedSubarea = .error err) :
    handleSubmit env s =
      ({ s with error := some (errorMessage err), isSubmitting := false },
       [Effect.preventDefault, Effect.scrollTo 0]) := by
  simp [handleSubmit, handleSubmitBegin, h, catchFinally]

theorem handleSubmit_of_incomplete (env : Env) (s : State) (total : Nat)
    (ht : totalQuestions env s.selectedArea s.selectedSubarea = .ok total)
    (h : (objectKeys s.answers).length ≠ total) :
    handleSubmit env s =
      ({ s with error := some msgIncomplete, isSubmitting := false },
       [Effect.preventDefault, Effect.scrollTo 0]) := by
  have hm : errorMessage (newError msgIncomplete) = msgIncomplete :=
    errorMessage_newError _ (by decide)
  simp [handleSubmit, handleSubmitBegin, ht, h, catchFinally, hm]

theorem handleSubmit_of_bad_length (env : Env) (s : State)
    (hc : totalQuestions env s.selectedArea s.selectedSubarea
      = .ok (objectKeys s.answers).length)
    (h : (stripNonDigits s.formData.data).length ≠ 8) :
    handleSubmit env s =
      ({ s with error := some msgDateLength, isSubmitting := false },
       [Effect.preventDefault, Effect.scrollTo 0]) := by
  have hm : errorMessage (newError msgDateLength) = msgDateLength :=
    errorMessage_newError _ (by decide)
  simp [handleSubmit, handleSubmitBegin, hc, h, catchFinally, hm]

theorem handleSubmit_of_nan (env : Env) (s : State)
    (hc : totalQuestions env s.selectedArea s.selectedSubarea
      = .ok (objectKeys s.answers).length)
    (hl : (stripNonDigits s.formData.data).length = 8)
    (h : env.dateIsNaN (dataISO (stripNonDigits s.formData.data)) = true) :
    handleSubmit env s =
      ({ s with error := some msgDateInvalid, isSubmitting := false },
       [Effect.preventDefault, Effect.scrollTo 0]) := by
  have hm : errorMessage (newError msgDateInvalid) = msgDateInvalid :=
    errorMessage_newError _ (by decide)
  simp [handleSubmit, handleSubmitBegin, hc, hl, h, catchFinally, hm]

theorem handleSubmitBegin_of_valid (env : Env) (s : State)
    (hc : totalQuestions env s.selectedArea s.selectedSubarea
      = .ok (objectKeys s.answers).length)
    (hl : (stripNonDigits s.formData.data).length = 8)
    (h : env.dateIsNaN (dataISO (stripNonDigits s.formData.data)) = false) :
    handleSubmitBegin env s =
      .awaiting { s with error := none, isSubmitting := true }
        (payload s (dataISO (stripNonDigits s.formData.data)))
        [Effect.preventDefault,
         Effect.insert "dto_registros" [payload s (dataISO (stripNonDigits s.formData.data))]] := by
  simp [handleSubmitBegin, hc, hl, h]

theorem handleSubmit_of_insert_error (env : Env) (s : State) (e : ErrLike)
    (hc : totalQuestions env s.selectedArea s.selectedSubarea
      = .ok (objectKeys s.answers).length)
    (hl : (stripNonDigits s.formData.data).length = 8)
    (h : env.dateIsNaN (dataISO (stripNonDigits s.formData.data)) = false)
    (hi : env.insert "dto_registros" [payload s (dataISO (stripNonDigits s.formData.data))]
      = some e) :
    handleSubmit env s =
      ({ s with error := some (errorMessage e), isSubmitting := false },
       [Effect.preventDefault,
        Effect.insert "dto_registros" [payload s (dataISO (stripNonDigits s.formData.data))],
        Effect.scrollTo 0]) := by
  simp [handleSubmit, handleSubmitBegin_of_valid env s hc hl h, handleSubmitResume, hi,
    catchFinally]

theorem handleSubmit_of_insert_ok (env : Env) (s : State)
    (hc : totalQuestions env s.selectedArea s.selectedSubarea
      = .ok (objectKeys s.answers).length)
    (hl : (stripNonDigits s.formData.data).length = 8)
    (h : env.dateIsNaN (dataISO (stripNonDigits s.formData.data)) = false)
    (hi : env.insert "dto_registros" [payload s (dataISO (stripNonDigits s.formData.data))]
      = none) :
    handleSubmit env s =
      ({ selectedArea := ""
         selectedSubarea := ""
         answers := []
         formData := { data := "", colaborador := "", supervisor := "", funcao := "" }
         showSuccess := true
         error := none
         isSubmitting := false },
       [Effect.preventDefault,
        Effect.insert "dto_registros" [payload s (dataISO (stripNonDigits s.formData.data))],
        Effect.setTimeout .hideSuccess 5000,
        Effect.scrollTo 0]) := by
  simp [handleSubmit, handleSubmitBegin_of_valid env s hc hl h, handleSubmitResume, hi]

/-! ## The question count -/

theorem questionCount_lt (bank : QuestionBank) (area subarea : String) :
    questionCount bank area subarea < 4294967296 := by
  unfold questionCount
  split
  · rename_i qs _; exact qs.property
  · decide

theorem totalQuestions_of_own (env : Env) (area subarea : String)
    (subs : List (String × QuestionArray)) (qs : QuestionArray)
    (ha : env.perguntasDTO.lookup area = some subs) (hs : subs.lookup subarea = some qs) :
    totalQuestions env area subarea = .ok qs.val.length := by
  simp only [totalQuestions, ha, hs]
  by_cases h : qs.val.length = 0
  · simp [h]
  · simp [h]

theorem totalQuestions_of_questionCount_pos (env : Env) (area subarea : String)
    (h : 0 < questionCount env.perguntasDTO area subarea) :
    totalQuestions env area subarea = .ok (questionCount env.perguntasDTO area subarea) := by
  unfold questionCount at h ⊢
  cases ha : env.perguntasDTO.lookup area with
  | none => simp [ha] at h
  | some subs =>
    cases hs : subs.lookup subarea with
    | none => simp [ha, hs] at h
    | some qs =>
      rw [totalQuestions_of_own env area subarea subs qs ha hs]
      simp [ha, hs]

/-! ## More on property lists -/

theorem setProp_mem {κ : Type} [DecidableEq κ] (o : List (κ × String)) (k : κ)
    (v : String) : ∀ e ∈ setProp o k v, e ∈ o ∨ e = (k, v) := by
  induction o with
  | nil => intro e he; simp [setProp] at he; right; exact he
  | cons e' o ih =>
    obtain ⟨k', v'⟩ := e'
    intro e he
    by_cases hk : k' = k
    · simp only [setProp, hk, if_true, List.mem_cons] at he
      rcases he with rfl | he
      · right; rfl
      · left; exact List.mem_cons_of_mem _ he
    · simp only [setProp, hk, if_false, List.mem_cons] at he
      rcases he with rfl | he
      · left; exact List.mem_cons_self _ _
      · rcases ih e he with h | h
        · left; exact List.mem_cons_of_mem _ h
        · right; exact h

theorem setProp_keys {κ : Type} [DecidableEq κ] (o : List (κ × String)) (k : κ) (v : String) :
    (setProp o k v).map Prod.fst
      = if k ∈ o.map Prod.fst then o.map Prod.fst else o.map Prod.fst ++ [k] := by
  by_cases h : k ∈ o.map Prod.fst
  · rw [if_pos h, setProp_keys_of_mem o k v h]
  · rw [if_neg h, setProp_append_of_not_mem o k v h]; simp

theorem lookup_setProp_ne (o : JSObj) (k k' : String) (v : String) (h : k' ≠ k) :
    (setProp o k v).lookup k' = o.lookup k' := by
  induction o with
  | nil =>
    have : (k' == k) = false := by simpa using h
    simp [setProp, List.lookup, this]
  | cons e o ih =>
    obtain ⟨k₀, v₀⟩ := e
    by_cases hk : k₀ = k
    · subst hk
      have : (k' == k₀) = false := by simpa using h
      simp [setProp, List.lookup, this]
    · simp only [setProp, hk, if_false, List.lookup, ih]

theorem lookup_spreadInto (src : JSObj) : ∀ (base : JSObj) (k : String),
    (∀ kv ∈ src, kv.1 ≠ k) → (spreadInto base src).lookup k = base.lookup k := by
  induction src with
  | nil => intro base k _; rfl
  | cons kv src ih =>
    intro base k h
    have hk : k ≠ kv.1 := fun hh => h kv (List.mem_cons_self _ _) hh.symm
    have := ih (setProp base kv.1 kv.2) k (fun x hx => h x (List.mem_cons_of_mem _ hx))
    simp only [spreadInto, List.foldl_cons] at this ⊢
    rw [this, lookup_setProp_ne _ _ _ _ hk]

theorem mem_foldl_setProp {α : Type} (key : α → String) (val : α → String) :
    ∀ (l : List α) (acc : JSObj) (kv : String × String),
      kv ∈ l.foldl (fun o x => setProp o (key x) (val x)) acc →
      kv ∈ acc ∨ ∃ x ∈ l, kv.1 = key x := by
  intro l
  induction l with
  | nil => intro acc kv h; left; exact h
  | cons x l ih =>
    intro acc kv h
    rcases ih _ kv h with h1 | ⟨y, hy, hk⟩
    · rcases setProp_mem acc (key x) (val x) kv h1 with h2 | h2
      · left; exact h2
      · right; exact ⟨x, List.mem_cons_self _ _, by rw [h2]⟩
    · right; exact ⟨y, List.mem_cons_of_mem _ hy, hk⟩

theorem respostasMapeadas_keys (a : Answers) :
    ∀ kv ∈ respostasMapeadas a, ∃ t : String, kv.1 = "pergunta_" ++ t := by
  intro kv h
  rcases mem_foldl_setProp
      (fun kv : String × String => "pergunta_" ++ interpolate (plusOne (parseInt kv.1)))
      (fun kv => kv.2) (objectEntries a) [] kv h with h | ⟨x, _, hx⟩
  · simp at h
  · exact ⟨_, hx⟩

theorem payload_lookup_data (s : State) (iso : String) :
    (payload s iso).lookup "data" = some iso := by
  unfold payload
  rw [lookup_spreadInto]
  · rfl
  · intro kv hkv hd
    obtain ⟨t, ht⟩ := respostasMapeadas_keys s.answers kv hkv
    have : ("pergunta_" ++ t).data.head? = some 'p' := by
      rw [String.data_append]; rfl
    rw [← ht, hd] at this
    exact absurd this (by decide)

theorem dataISO_of_digits (r : String) (d1 d2 m1 m2 y1 y2 y3 y4 : Char)
    (h : r.data = [d1, d2, m1, m2, y1, y2, y3, y4]) :
    dataISO r = String.mk [y1, y2, y3, y4, '-', m1, m2, '-', d1, d2] := by
  apply String.ext
  simp [dataISO, jsSlice, h, String.data_append]

theorem eq_range_of_sorted_lt (l : List Nat) (n : Nat) (hs : l.Sorted (· < ·))
    (hb : ∀ k ∈ l, k < n) (hl : l.length = n) : l = List.range n := by
  have hnd : l.Nodup := hs.imp (fun h => Nat.ne_of_lt h)
  have hsub : l ⊆ List.range n := fun k hk => List.mem_range.2 (hb k hk)
  have hperm : l.Perm (List.range n) :=
    (List.subperm_of_subset hnd hsub).perm_of_length_le (by simp [hl])
  exact List.eq_of_perm_of_sorted hperm hs (List.sorted_lt_range n)

theorem handleSubmitBegin_awaiting_isSubmitting (env : Env) (s0 s : State) (row : JSObj)
    (effects : List Effect) (h : handleSubmitBegin env s0 = .awaiting s row effects) :
    s.isSubmitting = true := by
  unfold handleSubmitBegin at h
  simp only [] at h
  split at h
  · cases h
  · split at h
    · cases h
    · split at h
      · cases h
      · split at h
        · cases h
        · injection h with h1 _ _
          rw [← h1]

/-! ## Recording answers click by click -/

theorem handleAnswer_answers_perm (s : State) (k : Nat) (v : String)
    (hk : k ∉ s.answers.map Prod.fst) :
    (handleAnswer s k v).answers.Perm (s.answers ++ [(k, v)]) := by
  have hperm := ownEntries_perm s.answers
  have hk' : k ∉ (ownEntries s.answers).map Prod.fst :=
    fun h => hk (((hperm.map Prod.fst).mem_iff).1 h)
  show (setProp (ownEntries s.answers) k v).Perm _
  rw [setProp_append_of_not_mem _ _ _ hk']
  exact hperm.append_right _

theorem recordAnswers_answers_perm (clicks : List (Nat × String)) :
    ∀ s : State, (clicks.map Prod.fst).Nodup →
      (∀ e ∈ clicks, e.1 ∉ s.answers.map Prod.fst) →
      (recordAnswers s clicks).answers.Perm (s.answers ++ clicks) := by
  induction clicks with
  | nil => intro s _ _; simp [recordAnswers]
  | cons e clicks ih =>
    intro s hnd hdisj
    simp only [List.map_cons, List.nodup_cons] at hnd
    have he : e.1 ∉ s.answers.map Prod.fst := hdisj e (List.mem_cons_self _ _)
    have hstep := handleAnswer_answers_perm s e.1 e.2 he
    have hdisj' : ∀ x ∈ clicks, x.1 ∉ (handleAnswer s e.1 e.2).answers.map Prod.fst := by
      intro x hx hmem
      have hmem' := ((hstep.map Prod.fst).mem_iff).1 hmem
      simp only [List.map_append, List.map_cons, List.map_nil, List.mem_append,
        List.mem_singleton] at hmem'
      rcases hmem' with h | h
      · exact hdisj x (List.mem_cons_of_mem _ hx) h
      · exact hnd.1 (h ▸ List.mem_map_of_mem Prod.fst hx)
    have hrec := ih (handleAnswer s e.1 e.2) hnd.2 hdisj'
    have : recordAnswers s (e :: clicks) = recordAnswers (handleAnswer s e.1 e.2) clicks := rfl
    rw [this]
    refine hrec.trans ?_
    refine (hstep.append_right clicks).trans ?_
    simp

theorem recordAnswers_frame (clicks : List (Nat × String)) : ∀ s : State,
    (recordAnswers s clicks).formData = s.formData
    ∧ (recordAnswers s clicks).selectedArea = s.selectedArea
    ∧ (recordAnswers s clicks).selectedSubarea = s.selectedSubarea := by
  induction clicks with
  | nil => intro s; exact ⟨rfl, rfl, rfl⟩
  | cons e clicks ih => intro s; exact ih (handleAnswer s e.1 e.2)

/-! ## The key-coverage invariant -/

theorem renderedQuestions_length_le (bank : QuestionBank) (s : State) :
    (renderedQuestions bank s).length ≤ questionCount bank s.selectedArea s.selectedSubarea := by
  unfold renderedQuestions questionCount
  split
  · simp
  · cases (bank.lookup s.selectedArea).bind (fun subs => subs.lookup s.selectedSubarea) with
    | none => simp
    | some qs => simp

theorem reachable_invariant (bank : QuestionBank) (s : State) (h : Reachable bank s) :
    (s.answers.map Prod.fst).Nodup
    ∧ (∀ k ∈ s.answers.map Prod.fst, k < questionCount bank s.selectedArea s.selectedSubarea)
    ∧ (∀ e ∈ s.answers, e.2 = "OK" ∨ e.2 = "NOK") := by
  induction h with
  | init => simp [initialState]
  | area s v _ _ => simp [handleAreaChange]
  | subarea s v _ _ _ => simp [handleSubareaChange]
  | answer s i label _ hi hlabel ih =>
    obtain ⟨hnd, hlt, hval⟩ := ih
    have hperm := ownEntries_perm s.answers
    have hnd' := ownEntries_keys_nodup s.answers hnd
    have hiN : i < questionCount bank s.selectedArea s.selectedSubarea :=
      Nat.lt_of_lt_of_le hi (renderedQuestions_length_le bank s)
    have hkeys := setProp_keys (ownEntries s.answers) i label
    refine ⟨?_, ?_, ?_⟩
    · show ((setProp (ownEntries s.answers) i label).map Prod.fst).Nodup
      rw [hkeys]
      split
      · exact hnd'
      · rename_i hmem
        exact List.Nodup.append hnd' (List.nodup_singleton i)
          (by
            intro k hk hk'
            rw [List.mem_singleton] at hk'
            exact hmem (hk' ▸ hk))
    · show ∀ k ∈ (setProp (ownEntries s.answers) i label).map Prod.fst,
        k < questionCount bank s.selectedArea s.selectedSubarea
      rw [hkeys]
      have hold : ∀ k ∈ (ownEntries s.answers).map Prod.fst,
          k < questionCount bank s.selectedArea s.selectedSubarea :=
        fun k hk => hlt k (((hperm.map Prod.fst).mem_iff).1 hk)
      split
      · exact hold
      · intro k hk
        rcases List.mem_append.1 hk with hk | hk
        · exact hold k hk
        · rw [List.mem_singleton] at hk
          rw [hk]; exact hiN
    · show ∀ e ∈ setProp (ownEntries s.answers) i label, e.2 = "OK" ∨ e.2 = "NOK"
      intro e he
      rcases setProp_mem _ _ _ e he with h | h
      · exact hval e ((hperm.mem_iff).1 h)
      · rw [h]; exact hlabel

theorem keys_range_of_count (a : Answers) (n : Nat) (hnd : (a.map Prod.fst).Nodup)
    (hlt : ∀ k ∈ a.map Prod.fst, k < n) (hn : n < 4294967296)
    (hcount : (objectKeys a).length = n) :
    (ownEntries a).map Prod.fst = List.range n := by
  have hidx : ∀ e ∈ a, e.1 < 4294967295 := by
    intro e he
    have := hlt e.1 (List.mem_map_of_mem Prod.fst he)
    omega
  apply eq_range_of_sorted_lt _ _ (ownEntries_sorted_lt a hnd hidx)
  · intro k hk
    exact hlt k ((((ownEntries_perm a).map Prod.fst).mem_iff).1 hk)
  · rw [List.length_map, ownEntries_length, ← objectKeys_length]
    exact hcount

/-! ## Digits -/

theorem isDigit_eq_mem (c : Char) :
    c.isDigit = decide (c ∈ ['0', '1', '2', '3', '4', '5', '6', '7', '8', '9']) := by
  by_cases h : c.isDigit = true
  · rw [h]
    have hb : 48 ≤ c.toNat ∧ c.toNat ≤ 57 := by
      simp only [Char.isDigit, Bool.and_eq_true, decide_eq_true_eq] at h
      exact ⟨h.1, h.2⟩
    have hc : c = Char.ofNat c.toNat := (Char.ofNat_toNat c).symm
    obtain ⟨h1, h2⟩ := hb
    symm
    rw [decide_eq_true_eq, hc]
    generalize c.toNat = n at h1 h2
    interval_cases n <;> decide
  · have hf : c.isDigit = false := by simpa using h
    rw [hf]
    symm
    rw [decide_eq_false_iff_not]
    intro hm
    simp only [List.mem_cons, List.mem_singleton, List.not_mem_nil, or_false] at hm
    rcases hm with rfl | rfl | rfl | rfl | rfl | rfl | rfl | rfl | rfl | rfl <;>
      exact absurd hf (by decide)

theorem stripNonDigits_data (d : String) :
    (stripNonDigits d).data
      = d.data.filter (fun c => decide (c ∈ ['0', '1', '2', '3', '4', '5', '6', '7', '8', '9'])) := by
  show d.data.filter Char.isDigit = _
  congr 1
  funext c
  exact isDigit_eq_mem c

/-! ## Properties of the specification -/

/-- C1, as stated, fails for a name inherited from `Object.prototype`: `constructor` is
not an area of the bank, yet `perguntasDTO['constructor']` is the function `Object` and
its `name` is the string `Object`, of length 6.  With six recorded answers the
completeness check passes, the record is inserted and the form is reset, where the
statement has N = 0, the incompleteness error and no insert. -/
theorem handleSubmit_inherited_name_passes :
    exampleBank.lookup "constructor" = none
    ∧ totalQuestions exampleEnv "constructor" "name" = .ok 6
    ∧ handleSubmit exampleEnv
        { exampleState with
            selectedArea := "constructor"
            selectedSubarea := "name"
            answers := [(0, "OK"), (1, "OK"), (2, "OK"), (3, "OK"), (4, "OK"), (5, "OK")] } =
        ({ initialState with showSuccess := true },
         [Effect.preventDefault,
          Effect.insert "dto_registros"
            [[("data", "2024-12-25"), ("supervisor", "Rui"), ("colaborador", "Ana"),
              ("funcao", "Soldador"), ("area", "constructor"), ("subarea", "name"),
              ("pergunta_1", "OK"), ("pergunta_2", "OK"), ("pergunta_3", "OK"),
              ("pergunta_4", "OK"), ("pergunta_5", "OK"), ("pergunta_6", "OK")]],
          Effect.setTimeout .hideSuccess 5000,
          Effect.scrollTo 0]) := by
  decide

/-- C1, amended. Let `total` be the value of
`perguntasDTO[selectedArea]?.[selectedSubarea]?.length || 0`.  When the number of recorded
answers differs from `total`, `handleSubmit` ends with the incompleteness message as the
current error, the rest of the form as it was, and no insert call.  `total` is the length
of the question list when the area is in the bank and the subarea under it; it is 0 when
the area is neither in the bank nor a name inherited from `Object.prototype`, and when the
area is in the bank and the subarea is neither under it nor such an inherited name.  For
an inherited name it is what the reads find: the `length` of the member `selectedSubarea`
of the value inherited as `selectedArea`, or, under an area of the bank, the `length` of
the value inherited as `selectedSubarea`. -/
theorem handleSubmit_incomplete_rejected (env : Env) (s : State) (total : Nat)
    (htotal : totalQuestions env s.selectedArea s.selectedSubarea = .ok total)
    (hcount : (objectKeys s.answers).length ≠ total) :
    handleSubmit env s =
      ({ s with
          error := some "Por favor, responda todas as perguntas antes de enviar.",
          isSubmitting := false },
       [Effect.preventDefault, Effect.scrollTo 0])
    ∧ (∀ table rows, Effect.insert table rows ∉ (handleSubmit env s).2)
    ∧ (∀ subs qs, env.perguntasDTO.lookup s.selectedArea = some subs →
        subs.lookup s.selectedSubarea = some qs → total = qs.val.length)
    ∧ (env.perguntasDTO.lookup s.selectedArea = none → env.inherited s.selectedArea = none →
        total = 0)
    ∧ (∀ subs, env.perguntasDTO.lookup s.selectedArea = some subs →
        subs.lookup s.selectedSubarea = none → env.inherited s.selectedSubarea = none →
        total = 0)
    ∧ (∀ v, env.perguntasDTO.lookup s.selectedArea = none →
        env.inherited s.selectedArea = some v → v.member s.selectedSubarea = .ok total)
    ∧ (∀ subs v, env.perguntasDTO.lookup s.selectedArea = some subs →
        subs.lookup s.selectedSubarea = none → env.inherited s.selectedSubarea = some v →
        total = v.length) := by
  have h := handleSubmit_of_incomplete env s total htotal hcount
  refine ⟨h, ?_, ?_, ?_, ?_, ?_, ?_⟩
  · intro table rows
    rw [h]
    simp
  · intro subs qs ha hs
    rw [totalQuestions_of_own env _ _ subs qs ha hs] at htotal
    injection htotal with h1
    exact h1.symm
  · intro ha hi
    simp only [totalQuestions, ha, hi] at htotal
    injection htotal with h1
    exact h1.symm
  · intro subs ha hs hi
    simp only [totalQuestions, ha, hs, hi] at htotal
    injection htotal with h1
    exact h1.symm
  · intro v ha hi
    simp only [totalQuestions, ha, hi] at htotal
    exact htotal
  · intro subs v ha hs hi
    simp only [totalQuestions, ha, hs, hi] at htotal
    injection htotal with h1
    exact h1.symm

/-- Witness of the amended C1: with three questions, two answers (fewer) and four answers
(more) are both refused; with an area that is not in the bank, and with no area and no
subarea selected, one answer is refused; with the inherited names `constructor` and
`name`, where the total is 6, five answers are refused. -/
theorem handleSubmit_incomplete_rejected_witness :
    (handleSubmit exampleEnv { exampleState with answers := [(0, "OK"), (2, "NOK")] }).1.error
        = some "Por favor, responda todas as perguntas antes de enviar."
    ∧ (handleSubmit exampleEnv
        { exampleState with answers := [(0, "OK"), (1, "OK"), (2, "OK"), (3, "OK")] }).1.error
        = some "Por favor, responda todas as perguntas antes de enviar."
    ∧ (handleSubmit exampleEnv
        { exampleState with selectedArea := "manutencao", answers := [(0, "OK")] }).2
        = [Effect.preventDefault, Effect.scrollTo 0]
    ∧ (handleSubmit exampleEnv
        { exampleState with selectedArea := "", selectedSubarea := "", answers := [(0, "OK")] }).2
        = [Effect.preventDefault, Effect.scrollTo 0]
    ∧ (handleSubmit exampleEnv
        { exampleState with
            selectedArea := "constructor"
            selectedSubarea := "name"
            answers := [(0, "OK"), (1, "OK"), (2, "OK"), (3, "OK"), (4, "OK")] }).1.error
        = some "Por favor, responda todas as perguntas antes de enviar." :=
  ⟨congrArg (fun r => r.1.error)
      (handleSubmit_incomplete_rejected exampleEnv
        { exampleState with answers := [(0, "OK"), (2, "NOK")] } 3 (by decide) (by decide)).1,
   congrArg (fun r => r.1.error)
      (handleSubmit_incomplete_rejected exampleEnv
        { exampleState with answers := [(0, "OK"), (1, "OK"), (2, "OK"), (3, "OK")] } 3
        (by decide) (by decide)).1,
   congrArg (fun r => r.2)
      (handleSubmit_incomplete_rejected exampleEnv
        { exampleState with selectedArea := "manutencao", answers := [(0, "OK")] } 0
        (by decide) (by decide)).1,
   congrArg (fun r => r.2)
      (handleSubmit_incomplete_rejected exampleEnv
        { exampleState with selectedArea := "", selectedSubarea := "", answers := [(0, "OK")] }
        0 (by decide) (by decide)).1,
   congrArg (fun r => r.1.error)
      (handleSubmit_incomplete_rejected exampleEnv
        { exampleState with
            selectedArea := "constructor"
            selectedSubarea := "name"
            answers := [(0, "OK"), (1, "OK"), (2, "OK"), (3, "OK"), (4, "OK")] }
        6 (by decide) (by decide)).1⟩

/-- C2. On a host with V8's date-only parsing, the date fields `31042024` and `30022024`
(31 April and 30 February 2024, neither of which exists) pass the date check: the record is
inserted with `data` `2024-04-31`, respectively `2024-02-30`, and the form is reset as after
a success, where the specification has the invalid-date error and no insert. -/
theorem handleSubmit_v8_accepts_nonexistent_day :
    calendarDateExists 2024 4 31 = false ∧ calendarDateExists 2024 2 30 = false
    ∧ handleSubmit v8Env (withDate exampleState "31042024") =
        ({ initialState with showSuccess := true },
         [Effect.preventDefault,
          Effect.insert "dto_registros"
            [[("data", "2024-04-31"), ("supervisor", "Rui"), ("colaborador", "Ana"),
              ("funcao", "Soldador"), ("area", "seguranca"), ("subarea", "epi"),
              ("pergunta_1", "OK"), ("pergunta_2", "NOK"), ("pergunta_3", "OK")]],
          Effect.setTimeout .hideSuccess 5000,
          Effect.scrollTo 0])
    ∧ (handleSubmit v8Env (withDate exampleState "30022024")).1.error = none
    ∧ (handleSubmit v8Env (withDate exampleState "30022024")).2.filter isInsert =
        [Effect.insert "dto_registros"
            [[("data", "2024-02-30"), ("supervisor", "Rui"), ("colaborador", "Ana"),
              ("funcao", "Soldador"), ("area", "seguranca"), ("subarea", "epi"),
              ("pergunta_1", "OK"), ("pergunta_2", "NOK"), ("pergunta_3", "OK")]]] := by
  decide

/-- C3. Date parsing, for a state that passes the completeness check and a host whose
`Date` accepts every existing `YYYY-MM-DD` date.  The stripped date `r` is the date field
with every character other than `0`..`9` removed, the others kept in order.  When `r` has
not 8 digits, `handleSubmit` ends with the wrong-length message and its result is the same
whatever the host date test is.  When `r` is the 8 digits `d1 d2 m1 m2 y1 y2 y3 y4`, the
ISO string is `y1 y2 y3 y4 - m1 m2 - d1 d2`; if that date exists, the run reaches the insert
and the `data` field of the inserted record is that ISO string. -/
theorem handleSubmit_date_parsing (env : Env) (s : State)
    (hcomplete : totalQuestions env s.selectedArea s.selectedSubarea
      = .ok (objectKeys s.answers).length)
    (hhost : ∀ iso, isoDateExists iso = true → env.dateIsNaN iso = false) :
    (stripNonDigits s.formData.data).data
      = s.formData.data.data.filter
          (fun c => decide (c ∈ ['0', '1', '2', '3', '4', '5', '6', '7', '8', '9']))
    ∧ ((stripNonDigits s.formData.data).length ≠ 8 →
      handleSubmit env s =
        ({ s with
            error := some "Data inválida. Preencha completamente DD/MM/AAAA",
            isSubmitting := false },
         [Effect.preventDefault, Effect.scrollTo 0])
      ∧ ∀ f : String → Bool, handleSubmit { env with dateIsNaN := f } s = handleSubmit env s)
    ∧ ((stripNonDigits s.formData.data).length = 8 →
      (∃ d1 d2 m1 m2 y1 y2 y3 y4 : Char,
        (stripNonDigits s.formData.data).data = [d1, d2, m1, m2, y1, y2, y3, y4]
        ∧ dataISO (stripNonDigits s.formData.data)
            = String.mk [y1, y2, y3, y4, '-', m1, m2, '-', d1, d2])
      ∧ (isoDateExists (dataISO (stripNonDigits s.formData.data)) = true →
          handleSubmitBegin env s =
            .awaiting { s with error := none, isSubmitting := true }
              (payload s (dataISO (stripNonDigits s.formData.data)))
              [Effect.preventDefault,
               Effect.insert "dto_registros"
                 [payload s (dataISO (stripNonDigits s.formData.data))]]
          ∧ (payload s (dataISO (stripNonDigits s.formData.data))).lookup "data"
              = some (dataISO (stripNonDigits s.formData.data)))) := by
  refine ⟨stripNonDigits_data _, ?_, ?_⟩
  · intro hlen
    refine ⟨handleSubmit_of_bad_length env s hcomplete hlen, ?_⟩
    intro f
    rw [handleSubmit_of_bad_length env s hcomplete hlen]
    exact handleSubmit_of_bad_length { env with dateIsNaN := f } s hcomplete hlen
  · intro hlen
    refine ⟨?_, ?_⟩
    · have hl : (stripNonDigits s.formData.data).data.length = 8 := hlen
      rcases hd : (stripNonDigits s.formData.data).data with
        _ | ⟨a, _ | ⟨b, _ | ⟨c, _ | ⟨d, _ | ⟨e, _ | ⟨f, _ | ⟨g, _ | ⟨h, _ | ⟨i, t⟩⟩⟩⟩⟩⟩⟩⟩⟩
        <;> rw [hd] at hl <;> simp at hl
      exact ⟨a, b, c, d, e, f, g, h, rfl, dataISO_of_digits _ _ _ _ _ _ _ _ _ hd⟩
    · intro hex
      exact ⟨handleSubmitBegin_of_valid env s hcomplete hlen (hhost _ hex),
        payload_lookup_data s _⟩

/-- Witness of C3: `25122024` gives `2024-12-25` and reaches the insert; so does the
masked text `25/12/2024`, stripped to the same 8 digits; `2512202` (7 digits) and
`25/12/202_` are refused with the wrong-length message. -/
theorem handleSubmit_date_parsing_witness :
    isoDateExists "2024-12-25" = true
    ∧ handleSubmitBegin exampleEnv exampleState =
        .awaiting { exampleState with error := none, isSubmitting := true }
          [("data", "2024-12-25"), ("supervisor", "Rui"), ("colaborador", "Ana"),
           ("funcao", "Soldador"), ("area", "seguranca"), ("subarea", "epi"),
           ("pergunta_1", "OK"), ("pergunta_2", "NOK"), ("pergunta_3", "OK")]
          [Effect.preventDefault,
           Effect.insert "dto_registros"
             [[("data", "2024-12-25"), ("supervisor", "Rui"), ("colaborador", "Ana"),
               ("funcao", "Soldador"), ("area", "seguranca"), ("subarea", "epi"),
               ("pergunta_1", "OK"), ("pergunta_2", "NOK"), ("pergunta_3", "OK")]]]
    ∧ (stripNonDigits "25/12/2024").data = ['2', '5', '1', '2', '2', '0', '2', '4']
    ∧ (payload (withDate exampleState "25/12/2024")
        (dataISO (stripNonDigits "25/12/2024"))).lookup "data" = some "2024-12-25"
    ∧ handleSubmit exampleEnv (withDate exampleState "2512202") =
        ({ withDate exampleState "2512202" with
            error := some "Data inválida. Preencha completamente DD/MM/AAAA",
            isSubmitting := false },
         [Effect.preventDefault, Effect.scrollTo 0])
    ∧ handleSubmit exampleEnv (withDate exampleState "25/12/202_") =
        ({ withDate exampleState "25/12/202_" with
            error := some "Data inválida. Preencha completamente DD/MM/AAAA",
            isSubmitting := false },
         [Effect.preventDefault, Effect.scrollTo 0]) :=
  ⟨by decide,
   (((handleSubmit_date_parsing exampleEnv exampleState (by decide)
      (fun iso h => by simp [exampleEnv, strictDateIsNaN, h])).2.2 (by decide)).2 (by decide)).1,
   (handleSubmit_date_parsing exampleEnv (withDate exampleState "25/12/2024") (by decide)
      (fun iso h => by simp [exampleEnv, strictDateIsNaN, h])).1,
   (((handleSubmit_date_parsing exampleEnv (withDate exampleState "25/12/2024") (by decide)
      (fun iso h => by simp [exampleEnv, strictDateIsNaN, h])).2.2 (by decide)).2 (by decide)).2,
   ((handleSubmit_date_parsing exampleEnv (withDate exampleState "2512202") (by decide)
      (fun iso h => by simp [exampleEnv, strictDateIsNaN, h])).2.1 (by decide)).1,
   ((handleSubmit_date_parsing exampleEnv (withDate exampleState "25/12/202_") (by decide)
      (fun iso h => by simp [exampleEnv, strictDateIsNaN, h])).2.1 (by decide)).1⟩

/-- C4, as stated, fails above `2^53`: the sum `parseInt(key) + 1` is a double.  The keys
`2^53 - 1` and `2^53` both give the field name `pergunta_9007199254740992`, so the record
has one `pergunta_*` field for the two answers and the answer `OK` is lost.  And keys
that are not array indices (`2^32 - 1` and `2^32` here) are enumerated in creation
order, so two creation orders of the same answers give records that list their fields
in different orders. -/
theorem payload_merges_answers_at_2_pow_53 :
    ([(9007199254740991, "OK"), (9007199254740992, "NOK")].map Prod.fst).Nodup
    ∧ (payload
        { exampleState with answers := [(9007199254740991, "OK"), (9007199254740992, "NOK")] }
        "2024-12-25").filter isPerguntaField
        = [("pergunta_9007199254740992", "NOK")]
    ∧ (payload { exampleState with answers := [(4294967295, "OK"), (4294967296, "NOK")] }
        "2024-12-25").filter isPerguntaField
        = [("pergunta_4294967296", "OK"), ("pergunta_4294967297", "NOK")]
    ∧ (payload { exampleState with answers := [(4294967296, "NOK"), (4294967295, "OK")] }
        "2024-12-25").filter isPerguntaField
        = [("pergunta_4294967297", "NOK"), ("pergunta_4294967296", "OK")] := by
  decide

/-- C4, amended. For an `answers` object whose keys are integers below `2^53` (distinct,
as in every object): the `pergunta_*` fields of the payload are, in the enumeration order
of `answers`, one field `pergunta_(k+1)` with value `answers[k]` for each key `k`; their
names are pairwise distinct; every such field comes from a pair of `answers`, and a pair
`(k, v)` is in `answers` exactly when the field `pergunta_(k+1) = v` is in the payload;
and every creation order of the same properties gives a payload with the same fields.  When the keys are array indices (below
`2^32 - 1`), the fields are in ascending key order and the payload is identical for every
creation order, also when the answers are recorded from the empty object by
`handleAnswer` in any order. -/
theorem payload_pergunta_fields (s : State) (iso : String)
    (hkeys : (s.answers.map Prod.fst).Nodup)
    (hbound : ∀ e ∈ s.answers, e.1 < 9007199254740992) :
    (payload s iso).filter isPerguntaField
        = (ownEntries s.answers).map (fun e => ("pergunta_" ++ numberToString (e.1 + 1), e.2))
    ∧ (((payload s iso).filter isPerguntaField).map Prod.fst).Nodup
    ∧ ((payload s iso).filter isPerguntaField).length = s.answers.length
    ∧ (∀ kv ∈ (payload s iso).filter isPerguntaField, ∃ k v,
        (k, v) ∈ s.answers ∧ kv = ("pergunta_" ++ numberToString (k + 1), v))
    ∧ (∀ k v, k < 9007199254740992 → ((k, v) ∈ s.answers ↔
        ("pergunta_" ++ numberToString (k + 1), v) ∈ (payload s iso).filter isPerguntaField))
    ∧ (∀ b : Answers, b.Perm s.answers →
        (payload { s with answers := b } iso).Perm (payload s iso))
    ∧ ((∀ e ∈ s.answers, e.1 < 4294967295) →
        ((ownEntries s.answers).map Prod.fst).Sorted (· < ·)
        ∧ (∀ b : Answers, b.Perm s.answers →
            payload { s with answers := b } iso = payload s iso)
        ∧ (∀ clicks : List (Nat × String), clicks.Perm s.answers →
            payload (recordAnswers { s with answers := [] } clicks) iso = payload s iso)) := by
  have hfilter : (payload s iso).filter isPerguntaField
      = (ownEntries s.answers).map
          (fun e => ("pergunta_" ++ numberToString (e.1 + 1), e.2)) := by
    rw [payload_eq s iso hkeys hbound, List.filter_append]
    have h1 : List.filter isPerguntaField
        [("data", iso), ("supervisor", s.formData.supervisor),
         ("colaborador", s.formData.colaborador), ("funcao", s.formData.funcao),
         ("area", s.selectedArea), ("subarea", s.selectedSubarea)] = [] := by
      simp [List.filter, isPerguntaField]
    have h2 : List.filter isPerguntaField
        ((ownEntries s.answers).map (fun e => ("pergunta_" ++ numberToString (e.1 + 1), e.2)))
        = (ownEntries s.answers).map
            (fun e => ("pergunta_" ++ numberToString (e.1 + 1), e.2)) := by
      apply List.filter_eq_self.2
      intro kv hkv
      obtain ⟨e, _, rfl⟩ := List.mem_map.1 hkv
      exact perguntaKey_isPerguntaField _ _
    rw [h1, h2, List.nil_append]
  have hbo : ∀ e ∈ ownEntries s.answers, e.1 < 9007199254740992 :=
    fun e he => hbound e (((ownEntries_perm s.answers).mem_iff).1 he)
  refine ⟨hfilter, ?_, ?_, ?_, ?_, ?_, ?_⟩
  · rw [hfilter]
    have := perguntaKeys_nodup (ownEntries s.answers)
      (ownEntries_keys_nodup s.answers hkeys) hbo
    simpa [List.map_map, Function.comp] using this
  · rw [hfilter, List.length_map, ownEntries_length]
  · intro kv hkv
    rw [hfilter] at hkv
    obtain ⟨e, he, heq⟩ := List.mem_map.1 hkv
    exact ⟨e.1, e.2, ((ownEntries_perm s.answers).mem_iff).1 he, heq.symm⟩
  · intro k v hk
    rw [hfilter]
    constructor
    · intro hmem
      exact List.mem_map.2 ⟨(k, v), ((ownEntries_perm s.answers).mem_iff).2 hmem, rfl⟩
    · intro hmem
      obtain ⟨e, he, heq⟩ := List.mem_map.1 hmem
      have hmem' : e ∈ s.answers := ((ownEntries_perm s.answers).mem_iff).1 he
      have hk1 : e.1 + 1 = k + 1 :=
        perguntaKey_inj _ _ (hbo e he) hk (congrArg Prod.fst heq)
      have hk : e.1 = k := by omega
      have hv : e.2 = v := congrArg Prod.snd heq
      have : e = (k, v) := Prod.ext hk hv
      exact this ▸ hmem'
  · intro b hb
    have hbk : (b.map Prod.fst).Nodup := ((hb.map Prod.fst).nodup_iff).2 hkeys
    have hbb : ∀ e ∈ b, e.1 < 9007199254740992 := fun e he => hbound e ((hb.mem_iff).1 he)
    rw [payload_eq s iso hkeys hbound, payload_eq { s with answers := b } iso hbk hbb]
    apply List.Perm.append_left
    apply List.Perm.map
    exact ((ownEntries_perm b).trans hb).trans (ownEntries_perm s.answers).symm
  · intro hidx
    refine ⟨ownEntries_sorted_lt s.answers hkeys hidx, ?_, ?_⟩
    · intro b hb
      have hbk : (b.map Prod.fst).Nodup := ((hb.map Prod.fst).nodup_iff).2 hkeys
      have hbb : ∀ e ∈ b, e.1 < 9007199254740992 := fun e he => hbound e ((hb.mem_iff).1 he)
      have hbi : ∀ e ∈ b, e.1 < 4294967295 := fun e he => hidx e ((hb.mem_iff).1 he)
      rw [payload_eq s iso hkeys hbound, payload_eq { s with answers := b } iso hbk hbb]
      show _ ++ (ownEntries b).map _ = _
      rw [ownEntries_eq_of_perm b s.answers hb hbk hbi]
    · intro clicks hc
      have hck : (clicks.map Prod.fst).Nodup := ((hc.map Prod.fst).nodup_iff).2 hkeys
      have hrec := recordAnswers_answers_perm clicks { s with answers := [] } hck (by simp)
      have hperm : (recordAnswers { s with answers := [] } clicks).answers.Perm s.answers := by
        simpa using hrec.trans hc
      have hrk : ((recordAnswers { s with answers := [] } clicks).answers.map Prod.fst).Nodup :=
        ((hperm.map Prod.fst).nodup_iff).2 hkeys
      have hrb : ∀ e ∈ (recordAnswers { s with answers := [] } clicks).answers,
          e.1 < 9007199254740992 := fun e he => hbound e ((hperm.mem_iff).1 he)
      have hri : ∀ e ∈ (recordAnswers { s with answers := [] } clicks).answers,
          e.1 < 4294967295 := fun e he => hidx e ((hperm.mem_iff).1 he)
      obtain ⟨hf, ha, hs⟩ := recordAnswers_frame clicks { s with answers := [] }
      rw [payload_eq s iso hkeys hbound, payload_eq _ iso hrk hrb, hf, ha, hs,
        ownEntries_eq_of_perm _ s.answers hperm hrk hri]

/-- Witness of the amended C4: the answers `0: OK, 1: NOK, 2: OK`, recorded in the order
2, 0, 1, give `pergunta_1 = OK`, `pergunta_2 = NOK`, `pergunta_3 = OK`. -/
theorem payload_pergunta_fields_witness :
    (exampleState.answers.map Prod.fst).Nodup
    ∧ (payload exampleState "2024-12-25").filter isPerguntaField
        = [("pergunta_1", "OK"), ("pergunta_2", "NOK"), ("pergunta_3", "OK")]
    ∧ payload { exampleState with answers := [(0, "OK"), (1, "NOK"), (2, "OK")] } "2024-12-25"
        = payload exampleState "2024-12-25"
    ∧ payload
        (recordAnswers { exampleState with answers := [] } [(1, "NOK"), (2, "OK"), (0, "OK")])
        "2024-12-25"
        = payload exampleState "2024-12-25" :=
  ⟨by decide,
   (payload_pergunta_fields exampleState "2024-12-25" (by decide) (by decide)).1,
   ((payload_pergunta_fields exampleState "2024-12-25" (by decide) (by decide)).2.2.2.2.2.2
      (by decide)).2.1 [(0, "OK"), (1, "NOK"), (2, "OK")] (by decide),
   ((payload_pergunta_fields exampleState "2024-12-25" (by decide) (by decide)).2.2.2.2.2.2
      (by decide)).2.2 [(1, "NOK"), (2, "OK"), (0, "OK")] (by decide)⟩

/-- C5. Key coverage: in every state reached from the initial one through
`handleAreaChange`, `handleSubareaChange` (to the empty value or to a listed subarea) and
`handleAnswer` (on a rendered question, with `OK` or `NOK`), every key of `answers` is below
the number `N` of questions of the selection; hence, when the count of answers is `N`, the
keys of `answers` are exactly `0, .., N-1` and every value is `OK` or `NOK`.  The same holds
with the total that `handleSubmit` computes for its count check. -/
theorem reachable_answers_keys_covered (bank : QuestionBank) (s : State)
    (h : Reachable bank s) :
    (∀ k ∈ s.answers.map Prod.fst, k < questionCount bank s.selectedArea s.selectedSubarea)
    ∧ ((objectKeys s.answers).length = questionCount bank s.selectedArea s.selectedSubarea →
        (ownEntries s.answers).map Prod.fst
            = List.range (questionCount bank s.selectedArea s.selectedSubarea)
        ∧ ∀ e ∈ s.answers, e.2 = "OK" ∨ e.2 = "NOK")
    ∧ (∀ (env : Env) (total : Nat), env.perguntasDTO = bank →
        totalQuestions env s.selectedArea s.selectedSubarea = .ok total →
        (∀ k ∈ s.answers.map Prod.fst, k < total)
        ∧ ((objectKeys s.answers).length = total →
            (ownEntries s.answers).map Prod.fst = List.range total
            ∧ ∀ e ∈ s.answers, e.2 = "OK" ∨ e.2 = "NOK")) := by
  obtain ⟨hnd, hlt, hval⟩ := reachable_invariant bank s h
  refine ⟨hlt, fun hcount => ⟨?_, hval⟩, ?_⟩
  · exact keys_range_of_count s.answers _ hnd hlt (questionCount_lt bank _ _) hcount
  · intro env total hbank htotal
    by_cases ha : s.answers = []
    · rw [ha]
      refine ⟨by simp, fun hcount => ⟨?_, by simp⟩⟩
      rw [← hcount]
      rfl
    · obtain ⟨e, he⟩ := List.exists_mem_of_ne_nil _ ha
      have hpos : 0 < questionCount bank s.selectedArea s.selectedSubarea := by
        have := hlt e.1 (List.mem_map_of_mem Prod.fst he)
        omega
      have hq := totalQuestions_of_questionCount_pos env s.selectedArea s.selectedSubarea
        (by rw [hbank]; exact hpos)
      rw [hq, hbank] at htotal
      injection htotal with ht
      rw [← ht]
      exact ⟨hlt, fun hcount =>
        ⟨keys_range_of_count s.answers _ hnd hlt (questionCount_lt bank _ _) hcount, hval⟩⟩

/-- Witness of C5: area `seguranca`, subarea `epi`, then the answers to questions 2, 0, 1
and a changed answer to question 2. -/
theorem reachable_answers_keys_covered_witness :
    (ownEntries
      (handleAnswer (handleAnswer (handleAnswer (handleAnswer
        (handleSubareaChange (handleAreaChange initialState "seguranca") "epi")
        2 "NOK") 0 "OK") 1 "NOK") 2 "OK").answers).map Prod.fst = List.range 3 :=
  (reachable_answers_keys_covered exampleBank _
    (Reachable.answer _ 2 "OK"
      (Reachable.answer _ 1 "NOK"
        (Reachable.answer _ 0 "OK"
          (Reachable.answer _ 2 "NOK"
            (Reachable.subarea _ "epi"
              (Reachable.area _ "seguranca" Reachable.init) (Or.inr (by decide)))
            (by decide) (Or.inr rfl))
          (by decide) (Or.inl rfl))
        (by decide) (Or.inr rfl))
      (by decide) (Or.inl rfl))).2.1 (by decide) |>.1

/-- C6, as stated, fails: in the state in which the first run of `handleSubmit` waits for
its insert (`isSubmitting` is true), a second run of `handleSubmit` issues a second insert
of the same record and then resets the form. -/
theorem handleSubmit_reentrant_inserts :
    handleSubmitBegin exampleEnv exampleState =
      .awaiting { exampleState with error := none, isSubmitting := true }
        (payload exampleState "2024-12-25")
        [Effect.preventDefault,
         Effect.insert "dto_registros" [payload exampleState "2024-12-25"]]
    ∧ ({ exampleState with error := none, isSubmitting := true } : State).isSubmitting = true
    ∧ handleSubmit exampleEnv { exampleState with error := none, isSubmitting := true } =
        ({ initialState with showSuccess := true },
         [Effect.preventDefault,
          Effect.insert "dto_registros" [payload exampleState "2024-12-25"],
          Effect.setTimeout .hideSuccess 5000,
          Effect.scrollTo 0])
    ∧ ¬ (∀ (env : Env) (s : State), s.isSubmitting = true → handleSubmit env s = (s, [])) := by
  refine ⟨by decide, by decide, by decide, ?_⟩
  intro h
  exact absurd
    (h exampleEnv { exampleState with error := none, isSubmitting := true } rfl)
    (by decide)

/-- C6, amended. While `isSubmitting` is true the submit button is disabled, and a submit
attempt made through the rendered form issues no call and changes no state; `isSubmitting`
is true in every state in which a run of `handleSubmit` waits for its insert. -/
theorem submitAttempt_while_submitting (env : Env) (s : State) :
    (s.isSubmitting = true → submitDisabled s = true ∧ submitAttempt env s = (s, []))
    ∧ (∀ s0 row effects, handleSubmitBegin env s0 = .awaiting s row effects →
        s.isSubmitting = true ∧ submitAttempt env s = (s, [])) := by
  have key : s.isSubmitting = true → submitDisabled s = true ∧ submitAttempt env s = (s, []) := by
    intro h
    have hd : submitDisabled s = true := h
    exact ⟨hd, by simp [submitAttempt, hd]⟩
  refine ⟨key, ?_⟩
  intro s0 row effects hb
  have hs := handleSubmitBegin_awaiting_isSubmitting env s0 s row effects hb
  exact ⟨hs, (key hs).2⟩

/-- Witness of the amended C6: the state waiting for the insert of the filled form. -/
theorem submitAttempt_while_submitting_witness :
    submitAttempt exampleEnv { exampleState with error := none, isSubmitting := true }
        = ({ exampleState with error := none, isSubmitting := true }, []) :=
  ((submitAttempt_while_submitting exampleEnv
      { exampleState with error := none, isSubmitting := true }).2
      exampleState (payload exampleState "2024-12-25")
      [Effect.preventDefault, Effect.insert "dto_registros" [payload exampleState "2024-12-25"]]
      (by decide)).2

/-- C7. Message mapping of the `catch` branch for an error `e` returned by the insert: the
stored error is the message computed from `e`, which is the permission message when the
code is `42501`, the store-date message when the code is `22008`, and for any other code
the message of `e` when it has a non-empty one and the fallback `Erro no envio: `
otherwise. -/
theorem catch_message_mapping (s : State) (e : ErrLike) :
    handleSubmitResume s (some e) =
      ({ s with error := some (errorMessage e), isSubmitting := false }, [Effect.scrollTo 0])
    ∧ (e.code = some "42501" →
        errorMessage e = "Permissão negada. Verifique as políticas do Supabase.")
    ∧ (e.code = some "22008" →
        errorMessage e = "Formato de data inválido no banco de dados.")
    ∧ (e.code ≠ some "42501" → e.code ≠ some "22008" →
        (∀ m, e.message = some m → m ≠ "" → errorMessage e = m)
        ∧ (e.message = none ∨ e.message = some "" → errorMessage e = "Erro no envio: ")) := by
  refine ⟨rfl, ?_, ?_, ?_⟩
  · intro h
    simp [errorMessage, h, msgPermission]
  · intro h
    simp [errorMessage, h, msgDateStore]
  · intro h1 h2
    refine ⟨?_, ?_⟩
    · intro m hm hne
      simp [errorMessage, h1, h2, hm, hne]
    · intro hm
      rcases hm with hm | hm <;> simp [errorMessage, h1, h2, hm, msgFallback]

/-- Witness of C7: a policy refusal with its own message, a store date error, an
unrecognised code with a message, and an error with neither message nor code. -/
theorem catch_message_mapping_witness :
    (handleSubmit deniedEnv exampleState).1.error
        = some "Permissão negada. Verifique as políticas do Supabase."
    ∧ errorMessage { message := some "date/time field value out of range", code := some "22008" }
        = "Formato de data inválido no banco de dados."
    ∧ errorMessage { message := some "duplicate key value", code := some "23505" }
        = "duplicate key value"
    ∧ errorMessage { message := none, code := none } = "Erro no envio: " :=
  ⟨by decide,
   (catch_message_mapping initialState
      { message := some "date/time field value out of range", code := some "22008" }).2.2.1 rfl,
   ((catch_message_mapping initialState
      { message := some "duplicate key value", code := some "23505" }).2.2.2
      (by decide) (by decide)).1 _ rfl (by decide),
   ((catch_message_mapping initialState { message := none, code := none }).2.2.2
      (by decide) (by decide)).2 (Or.inl rfl)⟩

/-- C8. Success path: when both validations pass and the insert returns no error,
`handleSubmit` leaves every form field, the area, the subarea and the answers empty, no
current error, `isSubmitting` false and the success flag true; it makes exactly one insert
call, on table `dto_registros`, and schedules exactly one timer, of 5000 ms, whose callback
clears the success flag (which puts the form back in its initial state). -/
theorem handleSubmit_success (env : Env) (s : State)
    (hcomplete : totalQuestions env s.selectedArea s.selectedSubarea
      = .ok (objectKeys s.answers).length)
    (hlen : (stripNonDigits s.formData.data).length = 8)
    (hdate : env.dateIsNaN (dataISO (stripNonDigits s.formData.data)) = false)
    (hins : env.insert "dto_registros" [payload s (dataISO (stripNonDigits s.formData.data))]
      = none) :
    (handleSubmit env s).1 =
      { selectedArea := ""
        selectedSubarea := ""
        answers := []
        formData := { data := "", colaborador := "", supervisor := "", funcao := "" }
        showSuccess := true
        error := none
        isSubmitting := false }
    ∧ (handleSubmit env s).2 =
        [Effect.preventDefault,
         Effect.insert "dto_registros" [payload s (dataISO (stripNonDigits s.formData.data))],
         Effect.setTimeout .hideSuccess 5000,
         Effect.scrollTo 0]
    ∧ (handleSubmit env s).2.filter isInsert =
        [Effect.insert "dto_registros" [payload s (dataISO (stripNonDigits s.formData.data))]]
    ∧ (handleSubmit env s).2.filter isTimer = [Effect.setTimeout .hideSuccess 5000]
    ∧ (runTimer .hideSuccess (handleSubmit env s).1).showSuccess = false
    ∧ runTimer .hideSuccess (handleSubmit env s).1 = initialState := by
  rw [handleSubmit_of_insert_ok env s hcomplete hlen hdate hins]
  exact ⟨rfl, rfl, rfl, rfl, rfl, rfl⟩

/-- Witness of C8: the filled form with date `25122024` on a host that accepts the date and
a store that accepts the row. -/
theorem handleSubmit_success_witness :
    handleSubmit exampleEnv exampleState =
      ({ initialState with showSuccess := true },
       [Effect.preventDefault,
        Effect.insert "dto_registros"
          [[("data", "2024-12-25"), ("supervisor", "Rui"), ("colaborador", "Ana"),
            ("funcao", "Soldador"), ("area", "seguranca"), ("subarea", "epi"),
            ("pergunta_1", "OK"), ("pergunta_2", "NOK"), ("pergunta_3", "OK")]],
        Effect.setTimeout .hideSuccess 5000,
        Effect.scrollTo 0]) :=
  Prod.ext
    (handleSubmit_success exampleEnv exampleState (by decide) (by decide) (by decide) rfl).1
    (handleSubmit_success exampleEnv exampleState (by decide) (by decide) (by decide) rfl).2.1

/-- C9. Failure path: whichever way a run of `handleSubmit` fails (answers incomplete, date
not of 8 digits, date refused by the host, error `e` returned by the insert, and also an
error thrown by the read of the question count), the resulting state is the state before
the run with the current error replaced by the mapped message and `isSubmitting` false:
form fields, area, subarea, answers and success flag are unchanged. -/
theorem handleSubmit_failure_keeps_form (env : Env) (s : State) :
    (∀ total, totalQuestions env s.selectedArea s.selectedSubarea = .ok total →
      (objectKeys s.answers).length ≠ total →
      handleSubmit env s =
        ({ s with
            error := some "Por favor, responda todas as perguntas antes de enviar.",
            isSubmitting := false },
         [Effect.preventDefault, Effect.scrollTo 0]))
    ∧ (totalQuestions env s.selectedArea s.selectedSubarea
        = .ok (objectKeys s.answers).length →
      ((stripNonDigits s.formData.data).length ≠ 8 →
        handleSubmit env s =
          ({ s with
              error := some "Data inválida. Preencha completamente DD/MM/AAAA",
              isSubmitting := false },
           [Effect.preventDefault, Effect.scrollTo 0]))
      ∧ ((stripNonDigits s.formData.data).length = 8 →
        (env.dateIsNaN (dataISO (stripNonDigits s.formData.data)) = true →
          handleSubmit env s =
            ({ s with error := some "Data inválida.", isSubmitting := false },
             [Effect.preventDefault, Effect.scrollTo 0]))
        ∧ (env.dateIsNaN (dataISO (stripNonDigits s.formData.data)) = false →
          ∀ e : ErrLike,
            env.insert "dto_registros"
              [payload s (dataISO (stripNonDigits s.formData.data))] = some e →
            handleSubmit env s =
              ({ s with error := some (errorMessage e), isSubmitting := false },
               [Effect.preventDefault,
                Effect.insert "dto_registros"
                  [payload s (dataISO (stripNonDigits s.formData.data))],
                Effect.scrollTo 0]))))
    ∧ (∀ err, totalQuestions env s.selectedArea s.selectedSubarea = .error err →
      handleSubmit env s =
        ({ s with error := some (errorMessage err), isSubmitting := false },
         [Effect.preventDefault, Effect.scrollTo 0])) := by
  refine ⟨handleSubmit_of_incomplete env s, fun hc => ⟨handleSubmit_of_bad_length env s hc,
    fun hl => ⟨handleSubmit_of_nan env s hc hl, fun hd e hi => ?_⟩⟩,
    handleSubmit_of_throw env s⟩
  exact handleSubmit_of_insert_error env s e hc hl hd hi

/-- Witness of C9: the filled form, which shows an earlier error, refused by the store's
policy; and the same form with the date `31042024` on a host that checks the month
length. -/
theorem handleSubmit_failure_keeps_form_witness :
    handleSubmit deniedEnv exampleState =
      ({ exampleState with
          error := some "Permissão negada. Verifique as políticas do Supabase.",
          isSubmitting := false },
       [Effect.preventDefault,
        Effect.insert "dto_registros" [payload exampleState "2024-12-25"],
        Effect.scrollTo 0])
    ∧ handleSubmit exampleEnv (withDate exampleState "31042024") =
      ({ withDate exampleState "31042024" with
          error := some "Data inválida.", isSubmitting := false },
       [Effect.preventDefault, Effect.scrollTo 0]) :=
  ⟨(((handleSubmit_failure_keeps_form deniedEnv exampleState).2.1 (by decide)).2
      (by decide)).2 (by decide) _ rfl,
   (((handleSubmit_failure_keeps_form exampleEnv (withDate exampleState "31042024")).2.1
      (by decide)).2 (by decide)).1 (by decide)⟩

/-- C10. Selection handlers: `handleAreaChange` with value `v` sets the area to `v`, the
subarea to the empty value and the answers to the empty object; `handleSubareaChange` with
value `v` sets the subarea to `v` and the answers to the empty object and keeps the area;
both keep the form fields and the error, success and submitting flags. -/
theorem selection_handlers_clear (s : State) (v : String) :
    handleAreaChange s v =
      { selectedArea := v
        selectedSubarea := ""
        answers := []
        formData := s.formData
        showSuccess := s.showSuccess
        error := s.error
        isSubmitting := s.isSubmitting }
    ∧ handleSubareaChange s v =
      { selectedArea := s.selectedArea
        selectedSubarea := v
        answers := []
        formData := s.formData
        showSuccess := s.showSuccess
        error := s.error
        isSubmitting := s.isSubmitting } :=
  ⟨rfl, rfl⟩
end DTOForm
